import Mathlib

/-!
Shallow embedding of scripts/generate_scenarios.py (chaos-utils).

The script is a combinatorial scenario generator over three fixed dimensions
(fault type, target tier, severity).  We embed:
  * the static configuration tables (FAULT_DEFINITIONS, SEVERITY_SLUGS,
    SEVERITY_LABELS, TARGET_TIERS, SEVERITIES, TIMING, INVARIANT_CRITERIA),
  * the scenario builder build_scenario (Python dict lookups that can raise
    KeyError, a LookupError, are modelled with Except String, the error value
    being the missing key, exactly as KeyError carries the key),
  * the full enumeration full_combinations and the built-in greedy pairwise
    reduction pairwise_combinations (the while loop is embedded with explicit
    fuel; the fuel is one more than the number of coverage requirements, and
    the theorems below show this fuel is never exhausted),
  * the independent scenario-name computation of the preview listing.

Python dicts are modelled as association lists in insertion order; Python
float literals in the tables are all exact multiples of 0.1 and are modelled
exactly by their value in tenths (no arithmetic is ever performed on them).
-/

deriving instance DecidableEq for Except

set_option maxHeartbeats 64000000

set_option maxRecDepth 400000

set_option synthInstance.maxSize 1000

namespace ChaosUtils

/-- Scalar values occurring in fault parameter dicts: ints, decimal floats
(all source literals are multiples of 0.1, stored as tenths), strings and
booleans. -/
inductive Value where
  | int (n : Int)
  | tenths (n : Int)
  | str (s : String)
  | bool (b : Bool)
deriving DecidableEq

/-- A flat parameter record (Python dict) in insertion order. -/
abbrev Params := List (String × Value)

/-- One entry of FAULT_DEFINITIONS: runner fault type, output category,
human label, and the concrete parameter dict per severity. -/
structure FaultDef where
  type : String
  category : String
  label : String
  mild : Params
  moderate : Params
  severe : Params
deriving DecidableEq

/-- One selector of a target tier: fleet-matching pattern plus the logical
alias used inside a scenario (the Python dict keys pattern / alias). -/
structure Selector where
  pattern : String
  aliasName : String
deriving DecidableEq

/-- One entry of TARGET_TIERS. -/
structure Tier where
  label : String
  selectors : List Selector
deriving DecidableEq

/-- One entry of TIMING. -/
structure Timing where
  duration : String
  warmup : String
  cooldown : String
deriving DecidableEq

/-- One invariant success criterion (INVARIANT_CRITERIA entry). -/
structure Criterion where
  name : String
  description : String
  type : String
  query : String
  threshold : String
  critical : Bool
deriving DecidableEq

/-- A criterion stamped with its evaluation window, the Python dict union
with key window appended by build_scenario. -/
structure WindowedCriterion extends Criterion where
  window : String
deriving DecidableEq

/-- The selector dict inside a target entry of the built scenario. -/
structure SelectorSpec where
  type : String
  enclave : String
  pattern : String
deriving DecidableEq

/-- One target entry of the built scenario. -/
structure TargetEntry where
  selector : SelectorSpec
  aliasName : String
deriving DecidableEq

/-- One fault-application entry of the built scenario. -/
structure FaultEntry where
  phase : String
  description : String
  target : String
  type : String
  params : Params
deriving DecidableEq

/-- The metadata section of the built scenario. -/
structure Metadata where
  name : String
  description : String
  tags : List String
  author : String
  version : String
deriving DecidableEq

/-- The spec section of the built scenario. -/
structure ScenarioSpec where
  targets : List TargetEntry
  duration : String
  warmup : String
  cooldown : String
  faults : List FaultEntry
  success_criteria : List WindowedCriterion
  metrics : List String
deriving DecidableEq

/-- The complete scenario record returned by build_scenario. -/
structure Scenario where
  apiVersion : String
  kind : String
  metadata : Metadata
  spec : ScenarioSpec
deriving DecidableEq

/-- FAULT_DEFINITIONS, in source insertion order. -/
def FAULT_DEFINITIONS : List (String × FaultDef) := [
  ("packet_loss", ⟨"network", "network",
    "Packet loss — simulates congested / lossy network links",
    [("packet_loss", .int 10), ("target_proto", .str "tcp,udp"), ("device", .str "eth0")],
    [("packet_loss", .int 40), ("target_proto", .str "tcp,udp"), ("device", .str "eth0")],
    [("packet_loss", .int 80), ("target_proto", .str "tcp,udp"), ("device", .str "eth0")]⟩),
  ("latency", ⟨"network", "network",
    "Added network latency — simulates slow / geographically distant peers",
    [("latency", .int 100), ("target_proto", .str "tcp,udp"), ("device", .str "eth0")],
    [("latency", .int 500), ("target_proto", .str "tcp,udp"), ("device", .str "eth0")],
    [("latency", .int 2000), ("target_proto", .str "tcp,udp"), ("device", .str "eth0")]⟩),
  ("bandwidth_throttle", ⟨"network", "network",
    "Bandwidth throttle — simulates underpowered or constrained uplinks",
    [("bandwidth", .int 10000), ("target_proto", .str "tcp,udp"), ("device", .str "eth0")],
    [("bandwidth", .int 1000), ("target_proto", .str "tcp,udp"), ("device", .str "eth0")],
    [("bandwidth", .int 100), ("target_proto", .str "tcp,udp"), ("device", .str "eth0")]⟩),
  ("packet_reorder", ⟨"network", "network",
    "Packet reordering — simulates out-of-order delivery disrupting protocol sequencing",
    [("reorder", .int 25), ("latency", .int 10), ("target_proto", .str "tcp,udp"), ("device", .str "eth0")],
    [("reorder", .int 50), ("latency", .int 10), ("target_proto", .str "tcp,udp"), ("device", .str "eth0")],
    [("reorder", .int 75), ("latency", .int 10), ("target_proto", .str "tcp,udp"), ("device", .str "eth0")]⟩),
  ("connection_drop", ⟨"connection_drop", "network",
    "Connection drop (iptables) — simulates intermittent TCP session resets",
    [("probability", .tenths 1), ("target_proto", .str "tcp"), ("rule_type", .str "drop")],
    [("probability", .tenths 4), ("target_proto", .str "tcp"), ("rule_type", .str "drop")],
    [("probability", .tenths 8), ("target_proto", .str "tcp"), ("rule_type", .str "drop")]⟩),
  ("dns_latency", ⟨"dns", "network",
    "DNS latency / failure — simulates slow or flaky service discovery",
    [("delay_ms", .int 250), ("failure_rate", .tenths 0)],
    [("delay_ms", .int 1000), ("failure_rate", .tenths 1)],
    [("delay_ms", .int 5000), ("failure_rate", .tenths 3)]⟩),
  ("container_restart", ⟨"container_restart", "applications",
    "Container restart — simulates process crash and recovery",
    [("grace_period", .int 30)],
    [("grace_period", .int 5)],
    [("grace_period", .int 0)]⟩),
  ("container_pause", ⟨"container_pause", "applications",
    "Container pause (SIGSTOP) — simulates frozen process / GC pause / OOM stall",
    [("duration", .str "30s"), ("unpause", .bool true)],
    [("duration", .str "60s"), ("unpause", .bool true)],
    [("duration", .str "120s"), ("unpause", .bool true)]⟩),
  ("cpu_stress", ⟨"cpu_stress", "cpu-memory",
    "CPU stress — simulates CPU-bound workload competing with validator logic",
    [("cpu_percent", .int 50)],
    [("cpu_percent", .int 75)],
    [("cpu_percent", .int 95)]⟩),
  ("memory_pressure", ⟨"memory_stress", "cpu-memory",
    "Memory pressure — simulates memory-constrained environment / memory leak",
    [("memory_mb", .int 256)],
    [("memory_mb", .int 512)],
    [("memory_mb", .int 1024)]⟩),
  ("disk_io", ⟨"disk_io", "filesystem",
    "Disk I/O delay — simulates slow storage (HDD / NFS / overloaded SSD)",
    [("io_latency_ms", .int 100), ("operation", .str "all")],
    [("io_latency_ms", .int 500), ("operation", .str "all")],
    [("io_latency_ms", .int 2000), ("operation", .str "all")]⟩)]

/-- SEVERITY_SLUGS: per fault type, the severity-to-name-slug dict. -/
def SEVERITY_SLUGS : List (String × List (String × String)) := [
  ("packet_loss", [("mild", "10pct"), ("moderate", "40pct"), ("severe", "80pct")]),
  ("latency", [("mild", "100ms"), ("moderate", "500ms"), ("severe", "2s")]),
  ("bandwidth_throttle", [("mild", "10mbps"), ("moderate", "1mbps"), ("severe", "100kbps")]),
  ("packet_reorder", [("mild", "25pct"), ("moderate", "50pct"), ("severe", "75pct")]),
  ("connection_drop", [("mild", "10pct"), ("moderate", "40pct"), ("severe", "80pct")]),
  ("dns_latency", [("mild", "250ms"), ("moderate", "1s"), ("severe", "5s")]),
  ("container_restart", [("mild", "graceful"), ("moderate", "quick"), ("severe", "immediate")]),
  ("container_pause", [("mild", "30s"), ("moderate", "60s"), ("severe", "120s")]),
  ("cpu_stress", [("mild", "50pct"), ("moderate", "75pct"), ("severe", "95pct")]),
  ("memory_pressure", [("mild", "256mb"), ("moderate", "512mb"), ("severe", "1gb")]),
  ("disk_io", [("mild", "100ms"), ("moderate", "500ms"), ("severe", "2s")])]

/-- SEVERITY_LABELS: per fault type, the severity-to-human-label dict. -/
def SEVERITY_LABELS : List (String × List (String × String)) := [
  ("packet_loss", [("mild", "10% packet loss"), ("moderate", "40% packet loss"), ("severe", "80% packet loss")]),
  ("latency", [("mild", "100 ms added latency"), ("moderate", "500 ms added latency"), ("severe", "2 s added latency")]),
  ("bandwidth_throttle", [("mild", "10 Mbps cap"), ("moderate", "1 Mbps cap"), ("severe", "100 kbps cap")]),
  ("packet_reorder", [("mild", "25% reorder"), ("moderate", "50% reorder"), ("severe", "75% reorder")]),
  ("connection_drop", [("mild", "10% TCP drop prob."), ("moderate", "40% TCP drop prob."), ("severe", "80% TCP drop prob.")]),
  ("dns_latency", [("mild", "250 ms DNS delay"), ("moderate", "1 s DNS delay"), ("severe", "5 s DNS delay / 30% fail")]),
  ("container_restart", [("mild", "graceful (30 s grace)"), ("moderate", "fast (5 s grace)"), ("severe", "immediate (0 s grace)")]),
  ("container_pause", [("mild", "30 s pause"), ("moderate", "60 s pause"), ("severe", "120 s pause")]),
  ("cpu_stress", [("mild", "50% CPU load"), ("moderate", "75% CPU load"), ("severe", "95% CPU load")]),
  ("memory_pressure", [("mild", "256 MB pressure"), ("moderate", "512 MB pressure"), ("severe", "1 GB pressure")]),
  ("disk_io", [("mild", "100 ms I/O delay"), ("moderate", "500 ms I/O delay"), ("severe", "2 s I/O delay")])]

/-- TARGET_TIERS, in source insertion order. -/
def TARGET_TIERS : List (String × Tier) := [
  ("validator1_heimdall", ⟨"validator 1 — Heimdall consensus layer only",
    [⟨"l2-cl-1-heimdall-v2-bor-validator", "target_heimdall"⟩]⟩),
  ("validator1_bor", ⟨"validator 1 — Bor execution layer only",
    [⟨"l2-el-1-bor-heimdall-v2-validator", "target_bor"⟩]⟩),
  ("validator1_both", ⟨"validator 1 — Heimdall + Bor (both layers of one validator)",
    [⟨"l2-cl-1-heimdall-v2-bor-validator", "target_heimdall"⟩,
     ⟨"l2-el-1-bor-heimdall-v2-validator", "target_bor"⟩]⟩),
  ("all_heimdall", ⟨"all validators — Heimdall consensus layer (wildcard)",
    [⟨"l2-cl-.*-heimdall-v2-bor-validator", "target_heimdall"⟩]⟩),
  ("all_bor", ⟨"all validators — Bor execution layer (wildcard)",
    [⟨"l2-el-.*-bor-heimdall-v2-validator", "target_bor"⟩]⟩),
  ("all_both", ⟨"all validators — Heimdall + Bor both layers (wildcard)",
    [⟨"l2-cl-.*-heimdall-v2-bor-validator", "target_heimdall"⟩,
     ⟨"l2-el-.*-bor-heimdall-v2-validator", "target_bor"⟩]⟩),
  ("rabbitmq", ⟨"RabbitMQ message broker (Heimdall event bus)",
    [⟨"l2-cl-.*-rabbitmq", "target_rabbitmq"⟩]⟩),
  ("rpc_nodes", ⟨"Bor RPC-only nodes (non-validator full nodes)",
    [⟨"l2-el-.*-bor-heimdall-v2-rpc", "target_rpc"⟩]⟩)]

/-- The severity dimension. -/
def SEVERITIES : List String := ["mild", "moderate", "severe"]

/-- TIMING, keyed by severity. -/
def TIMING : List (String × Timing) := [
  ("mild", ⟨"3m", "30s", "30s"⟩),
  ("moderate", ⟨"5m", "60s", "60s"⟩),
  ("severe", ⟨"8m", "2m", "2m"⟩)]

/-- INVARIANT_CRITERIA: the three topology-safe success criteria. -/
def INVARIANT_CRITERIA : List Criterion := [
  ⟨"block_production_continues",
   "Network continues producing Bor blocks during the fault",
   "prometheus",
   "increase(chain_head_block\x7bjob=~\"l2-el-.*-bor-heimdall-v2-validator\"\x7d[1m])",
   "> 0", true⟩,
  ⟨"consensus_height_advances",
   "Heimdall consensus height continues to increase",
   "prometheus",
   "increase(cometbft_consensus_height\x7bjob=~\"l2-cl-.*-heimdall-v2-bor-validator\"\x7d[1m])",
   "> 0", true⟩,
  ⟨"bft_quorum_maintained",
   "At least 2/3 of validators remain online (topology-safe BFT quorum ratio)",
   "prometheus",
   "count(up\x7bjob=~\"l2-cl-.*-heimdall-v2-bor-validator\"\x7d == 1) / scalar(count(up\x7bjob=~\"l2-cl-.*-heimdall-v2-bor-validator\"\x7d))",
   ">= 0.67", true⟩]

/-- Python dict subscription d[k]: the stored value, or a KeyError carrying
the missing key, modelled as Except.error k.  Dicts are association lists
with unique keys, scanned in insertion order. -/
def dictGet {α : Type} : List (String × α) → String → Except String α
  | [], k => .error k
  | (key, v) :: tl, k => if k = key then .ok v else dictGet tl k

/-- Python str.replace of a single character: fault_type.replace of
underscore by hyphen. -/
def dashed (s : String) : String :=
  ⟨s.data.map fun ch => if ch = '_' then '-' else ch⟩

/-- Subscription fault_def[severity] on a FaultDef: the three severity keys
of every fault definition dict, any other key is a KeyError. -/
def sevParamsOf (fd : FaultDef) (severity : String) : Except String Params :=
  if severity = "mild" then .ok fd.mild
  else if severity = "moderate" then .ok fd.moderate
  else if severity = "severe" then .ok fd.severe
  else .error severity

/-- scenario_description from the source: severity label, tier label and
fault context label joined into one sentence pair. -/
def scenario_description (fault_type target_tier severity : String) :
    Except String String := do
  let labels ← dictGet SEVERITY_LABELS fault_type
  let fault_label ← dictGet labels severity
  let tier ← dictGet TARGET_TIERS target_tier
  let fault_def ← dictGet FAULT_DEFINITIONS fault_type
  pure (fault_label ++ " on " ++ tier.label ++ ". " ++ fault_def.label ++ ".")

/-- build_scenario from the source: assembles the full scenario record for
one combination, with the dict lookups performed in source order (fault
type first, then target tier, then severity via TIMING). -/
def build_scenario (fault_type target_tier severity : String) :
    Except String Scenario := do
  let fault_def ← dictGet FAULT_DEFINITIONS fault_type
  let tier ← dictGet TARGET_TIERS target_tier
  let timing ← dictGet TIMING severity
  let selectors := tier.selectors
  let base_params ← sevParamsOf fault_def severity
  let labels ← dictGet SEVERITY_LABELS fault_type
  let sev_label ← dictGet labels severity
  let faults : List FaultEntry := selectors.map fun s =>
    ⟨dashed fault_type ++ "-" ++ s.aliasName,
     sev_label ++ " applied to " ++ s.aliasName,
     s.aliasName,
     fault_def.type,
     base_params⟩
  let criteria : List WindowedCriterion :=
    INVARIANT_CRITERIA.map fun c => ⟨c, timing.duration⟩
  let slugs ← dictGet SEVERITY_SLUGS fault_type
  let slug ← dictGet slugs severity
  let name := "gen-" ++ dashed fault_type ++ "-" ++ slug ++ "-" ++ dashed target_tier
  let desc ← scenario_description fault_type target_tier severity
  pure ⟨"chaos.polygon.io/v1", "ChaosScenario",
    ⟨name, desc, ["generated", dashed fault_type, slug, target_tier],
     "scripts/generate_scenarios.py", "0.0.1"⟩,
    ⟨selectors.map fun s =>
       ⟨⟨"kurtosis_service", "$\x7bENCLAVE_NAME\x7d", s.pattern⟩, s.aliasName⟩,
     timing.duration, timing.warmup, timing.cooldown,
     faults, criteria,
     ["chain_head_block", "cometbft_consensus_height",
      "cometbft_consensus_validators", "up"]⟩⟩

/-- The metadata name of the record assembled for a combination (the error
key when assembly fails, which never happens on declared values). -/
def nameOf (c : String × String × String) : String :=
  match build_scenario c.1 c.2.1 c.2.2 with
  | .ok r => r.metadata.name
  | .error e => e

/-- The scenario name recomputed independently by the preview listing
(_print_list): same slug lookup, then the gen-fault-slug-tier format string. -/
def preview_name (ft tt sv : String) : Except String String := do
  let slugs ← dictGet SEVERITY_SLUGS ft
  let slug ← dictGet slugs sv
  pure ("gen-" ++ dashed ft ++ "-" ++ slug ++ "-" ++ dashed tt)

/-- FAULT_DEFINITIONS.keys() in insertion order: the fault type dimension. -/
def faultKeys : List String := FAULT_DEFINITIONS.map Prod.fst

/-- TARGET_TIERS.keys() in insertion order: the target tier dimension. -/
def tierKeys : List String := TARGET_TIERS.map Prod.fst

/-- itertools.product over the three dimension value lists, last dimension
varying fastest: full_combinations from the source. -/
def full_combinations : List (String × String × String) :=
  faultKeys.flatMap fun f =>
    tierKeys.flatMap fun t =>
      SEVERITIES.map fun s => (f, t, s)

/-- A coverage requirement (i, vi, j, vj) with i < j dimension indices, as
in the required set of the source greedy algorithm. -/
abbrev Pair := Nat × String × Nat × String

/-- The requirement set (as a list): every pair of values from every ordered
pair of distinct dimensions, dimension indices 0, 1, 2. -/
def required : List Pair :=
  (faultKeys.flatMap fun vi => tierKeys.map fun vj => ((0 : Nat), vi, (1 : Nat), vj)) ++
  (faultKeys.flatMap fun vi => SEVERITIES.map fun vj => ((0 : Nat), vi, (2 : Nat), vj)) ++
  (tierKeys.flatMap fun vi => SEVERITIES.map fun vj => ((1 : Nat), vi, (2 : Nat), vj))

/-- The three pairwise projections of a combination: the pairs
(i, combo[i], j, combo[j]) for i < j, at the concrete three dimensions. -/
def pairsOf (c : String × String × String) : List Pair :=
  [(0, c.1, 1, c.2.1), (0, c.1, 2, c.2.2), (1, c.2.1, 2, c.2.2)]

/-- Number of pairwise projections of a combination not yet covered: the
new count of the source inner loop. -/
def newCount (covered : List Pair) (c : String × String × String) : Nat :=
  List.countP (fun p => decide (p ∉ covered)) (pairsOf c)

/-- One comparison step of the best-combination scan: keep the incumbent
unless the candidate covers strictly more uncovered requirements (so the
first maximum in enumeration order wins). -/
def bestStep (covered : List Pair) (b : Option (String × String × String) × Int)
    (c : String × String × String) : Option (String × String × String) × Int :=
  if (newCount covered c : Int) > b.2 then (some c, (newCount covered c : Int)) else b

/-- The inner scan of the greedy loop: best_combo, best_new = None, -1, then
one pass over the full combination domain. -/
def pickBest (covered : List Pair) : Option (String × String × String) × Int :=
  full_combinations.foldl (bestStep covered) (none, -1)

/-- Python proper-subset test covered < required on sets, over the
membership semantics of the two lists. -/
def properSubset (cov req : List Pair) : Bool :=
  cov.all (fun p => decide (p ∈ req)) && !(req.all (fun p => decide (p ∈ cov)))

/-- Set insertion covered.add(p) on a list with set semantics. -/
def insertNew (acc : List Pair) (p : Pair) : List Pair :=
  if p ∈ acc then acc else acc ++ [p]

/-- Marking all pairwise projections of the chosen combination as covered. -/
def greedyStepAdd (covered : List Pair) (c : String × String × String) : List Pair :=
  (pairsOf c).foldl insertNew covered

/-- One iteration of the greedy while loop: re-test the proper-subset
condition, scan the full domain for the first combination with maximal new
coverage, break on a missing candidate or zero gain, otherwise append the
winner, mark its projections covered, and continue through k. -/
def greedyBody (covered : List Pair) (selected : List (String × String × String))
    (k : List Pair → List (String × String × String) → List (String × String × String)) :
    List (String × String × String) :=
  if properSubset covered required then
    match pickBest covered with
    | (some c, n) =>
      if n = 0 then selected
      else k (greedyStepAdd covered c) (selected ++ [c])
    | (none, _) => selected
  else selected

/-- The greedy while loop, with explicit fuel bounding the iteration count. -/
def greedyLoop : Nat → List Pair → List (String × String × String) →
    List (String × String × String)
  | 0, _, selected => selected
  | fuel + 1, covered, selected => greedyBody covered selected (greedyLoop fuel)

/-- pairwise_combinations from the source (the built-in greedy fallback).
The while loop runs at most one iteration per requirement it newly covers,
so fuel one larger than the requirement count is never exhausted; the
coverage theorem below depends only on this bound. -/
def pairwise_combinations : List (String × String × String) :=
  greedyLoop (required.length + 1) [] []

/-- Proof helper: a string packed into one natural number, base 256 over
its character codes, used to turn the quadratic duplicate checks below into
fast machine-integer comparisons. -/
def packString (s : String) : Nat := s.data.foldl (fun acc c => acc * 256 + c.toNat) 0

/-- Proof helper: a combination packed into one natural number through its
comma-joined rendering. -/
def packCombo (c : String × String × String) : Nat :=
  packString (c.1 ++ "," ++ c.2.1 ++ "," ++ c.2.2)

/-- Proof helper: fueled merge of two lists of numbers. -/
def merge2 : Nat → List Nat → List Nat → List Nat
  | 0, as, bs => as ++ bs
  | _ + 1, [], bs => bs
  | _ + 1, a :: as, [] => a :: as
  | fuel + 1, a :: as, b :: bs =>
    if a ≤ b then a :: merge2 fuel as (b :: bs) else b :: merge2 fuel (a :: as) bs

/-- Proof helper: boolean strict-sortedness check on lists of numbers. -/
def sortedStrict : List Nat → Bool
  | [] => true
  | [_] => true
  | a :: b :: rest => Nat.blt a b && sortedStrict (b :: rest)

/-- Proof helper: fueled merge sort on lists of numbers, used only to give
fast duplicate-freeness certificates for evaluated data below. -/
def msort : Nat → List Nat → List Nat
  | 0, l => l
  | fuel + 1, l =>
    if l.length ≤ 1 then l
    else
      merge2 (l.length + 1) (msort fuel (l.take (l.length / 2)))
        (msort fuel (l.drop (l.length / 2)))

/-- The packed scenario names over the full domain, evaluated. -/
def namePackList : List Nat := [220852969303490837989338219745818369838234259959921210302238199245952221381027520352439956861447276,
 220852969303490837989338219745818369838253091265127370344529706614221844380275827418773348964985964,
 220852969303490837989338219745818369838278199672068917067585049771914675045940236840551205103037548,
 200864605452344074355403990690154723632289696943117824323269996280898541391277394653042,
 200864605452344074355403990690154723632306823915430295841842695712531935332913987612530,
 200864605452344074355403990690154723632329659878513591199939628288043127255096111558514,
 51421338995800083034983421616679609249866162417438163026757119047910026596167013031179368,
 51421338995800083034983421616679609249870546922350155735511730102408175445225980828808296,
 51421338995800083034983421616679609249876392928899479347184544841739040577304604558980200,
 3064950644719605626760925150911784723393092299547085935946820554737604568790690924,
 3064950644719605626760925150911784723393353636404881216686760426436112166777089132,
 3064950644719605626760925150911784723393702085548608257673346922034122297425620076,
 2787556372568001849468532919592493929843014756940725361297900739653490,
 2787556372568001849468532919592493929843252441428268154310681371504498,
 2787556372568001849468532919592493929843569354078325211661055547305842,
 713614431377408473463944427415678446039811777776825692492262589351294056,
 713614431377408473463944427415678446039872625005636647503534431105152104,
 713614431377408473463944427415678446039953754644051254185230220110296168,
 713614431377408473463944427415678446039811777776825693714134695887007089,
 713614431377408473463944427415678446039872625005636648725406537640865137,
 713614431377408473463944427415678446039953754644051255407102326646009201,
 182685294432616569206769773418413682186191815110867377591899569279893529971,
 182685294432616569206769773418413682186207392001442982074785160768881190259,
 182685294432616569206769773418413682186228161188877121385299282754198070643,
 51421338995336944673264660360780198565759765481186181577199589986550192247907169840753772,
 51421338995336944673264660360805306972701312204241524734892420652214601669685025978805356,
 3064950644692000429228822014378793133420550739893731081198050159379089809144376428,
 46767435374328619830762054662755143513786393196993396101970201913491284193138,
 46767435374328619830762054662777979476869688555090328677481393835673408139122,
 2787556372542895068571690002844473504792905023253962173110312650305394,
 11972463455828126676675085993665316739529316658430309402104371689853768753443944,
 11972463455828126676675085993671162746078640270103124141435236821932392483615848,
 713614431370981137554352640728185217226983685953014316316240038478181480,
 713614431370981137554352640728075309963781627989719111577687279395761260,
 713614431370981137554352640728423759107508668976305607175697410044292204,
 42534734688459702584406890912543846197019132367681080394581634156,
 649028544440608254766950850105854724428155921477554430701426,
 649028544440608254766950850106171637078212978827928606502770, 38685115840471282885488918429968040251896247689047922,
 166151307376795713220339417627098809453607915898253934259565672,
 166151307376795713220339417627179939092022522579949723264709736,
 9903389655160648418685163118071818304485439408396268648,
 166151307376795713220339417627098809453607917120126040795278705,
 166151307376795713220339417627179939092022523801821829800422769,
 9903389655160648418685163118071818305707311514931981681,
 42534734688459702584406890912537295220123626783833353576411063667,
 42534734688459702584406890912558064407557766094347475561727944051,
 2535267751721125995183401758226385486262152834955407025523,
 4074018202531892748697053614605180202652661658177482765065893368367573057944743216841953096580986397989951467379846252,
 15914133603640206049597865682051485166611959602255792051040140637485041389704592495453557384703180887357482558647404,
 1042948659848164543666445725338926131879081384493435587856868319618230247988326187582078730262019596100454359671731481708,
 3705297970129224948957065511972523566012261342782478791437727857890034154429252536685410720184323870453618,
 14473820195817284956863537156142670179735395870244057779054983836872489873444094423988242292310297177970,
 948556280353081586933008771064966032899138903752314570608057983570897929883654967472538128515243075617058674,
 948556280353081586933008771064966032899138903752314570608058331619848743533888649391465144367186910836126824,
 3705297970129224948957065511972523566012261342782478791438075862239357407601688172540990026831436077560936,
 242830407770388886254850245392631304422179559360592530075662843794149870050215671672969760899902227357967021160,
 56538360139911269362748192016182305389591390118140850699428220487824007476870626408077939328206072940,
 220852969296528395948235125063212130428091367648987698044662228956184226202162628454183256855768172,
 14473820195817284956863537156142670179735395870244057779053619134077422025806120427065010278730347670636,
 51421338994179013173150626258741163282676452689102780549936342584100209457456573006901106,
 200864605446011770207619633823207669072954893316807736523207703572719971091066898247538,
 13163862782509827372326560322237737800365171888410311820783698871380167498324335999372652402,
 13163862782509827372326560322237737800365171888410311820783703701529653621108882689766683752,
 51421338994179013173150626258741163282676452689102780549941172114616312599313125951370344,
 3369948872322515807315599442492860876893484003433039826120626911073322879571030015839399015528,
 13163862782509827372326560322237737800365171888410311820783703701529653622330754796302396785,
 51421338994179013173150626258741163282676452689102780549941172114616313821185232487083377,
 3369948872322515807315599442492860876893484003433039826120626911073322879572251887945934728561,
 3369948872322515807315599442492860876893484003433039826120628147591591327317754314986233292147,
 13163862782509827372326560322237737800365171888410311820784940061341776339304506649513059699,
 862706911314564046672793457278172384484731904878858195486880489234770657170497564401292110226803,
 3705297970246035342968133010421282221680300634988840702714469349751780979203538100253140246866266094136428,
 3705297970246035342968133010421282221680300635007549408277360120934619679710989074766757814069883509501036,
 3705297970246035342968133010421282221680300635020226211391402753570959926319576432333652024088586266700908,
 3369948872428754241780673519698468427741591435723276574858090816407439869366078801479616065394,
 3369948872428754241780673519698468427741591435740292043444569681864431622408109501308679122802,
 3369948872428754241780673519698468427741591435751821528712210014028605588755068704207270997874,
 862706911341761085895852421042807917501847407545158803163671249000304606557716173178781712741480,
 862706911341761085895852421042807917501847407549514763121809838557294495336476032335021855437928,
 862706911341761085895852421042807917501847407552466311350325763591323030721297588277061375456360,
 51421338995800083034983421626258368343224966975758004377107092153141410274523779761794156,
 51421338995800083034983421626258368343224966976017639823067768200763965099994218907135084,
 51421338995800083034983421626258368343224966976193565806765893386374529772036443072457836,
 46767435374749841716933062003825733284634195093311067809833814092727525207922,
 46767435374749841716933062003825733284634195093547204872327500380164533153650,
 46767435374749841716933062003825733284634195093707208622405135780695244959602,
 11972463455935959479534863872979387720866353943887633359317456407738246453228648,
 11972463455935959479534863872979387720866353943948084447315840097322120487335016,
 11972463455935959479534863872979387720866353943989045407335714759857982709658728,
 11972463455935959479534863872979387720866353943887633359317457629610352988941681,
 11972463455935959479534863872979387720866353943948084447315841319194227023048049,
 11972463455935959479534863872979387720866353943989045407335715981730089245371761,
 3064950644719605626760925151482723256541786609635234139985269154261337497988785523,
 3064950644719605626760925151482723256541786609650709618512855378794809250720015731,
 3064950644719605626760925151482723256541786609661195624277943292403989979634886003,
 948556280355334387024140737949391382641275826690346334456909658039462093678748163297285269881137791544421484,
 948556280355334387024140737949391382641275826690365165762115818081753601047017786296533576947471183647960172,
 948556280355334387024140737949391382641275826690390274169057364804808944204710616962197986369249039786011756,
 862706911316612956419831551056078190086987730583447350415471790292451345229663423467432284680050,
 862706911316612956419831551056078190086987730583464477387784261811024044661296817409068877639538,
 862706911316612956419831551056078190086987730583487313350867557169120977236808009331251001585522,
 220852969297052916843476877070356016662268859029362521706360778314867544378793836407662664878093416,
 220852969297052916843476877070356016662268859029366906211272771023622155433291985256721632675722344,
 220852969297052916843476877070356016662268859029372752217822094635294970172622850388800256405894248,
 13163862782541091253964714829346896211044124306998403174064205778005862134156014024298425452,
 13163862782541091253964714829346896211044124306998664510922001058745802005854521622284823660,
 13163862782541091253964714829346896211044124306999012960065728099732388501452531752933354604,
 11972463455586959074903202080665229196751283149750091228328715968023845683752818,
 11972463455586959074903202080665229196751283149750328912816258761036626315603826,
 11972463455586959074903202080665229196751283149750645825466315818387000491405170,
 3064950644630261523175219732650298674368328486336023354452151287814104495040722024,
 3064950644630261523175219732650298674368328486336084201680962242825376336794580072,
 3064950644630261523175219732650298674368328486336165331319376849507072125799724136,
 3064950644630261523175219732650298674368328486336023354452151289035976601576435057,
 3064950644630261523175219732650298674368328486336084201680962244047248443330293105,
 3064950644630261523175219732650298674368328486336165331319376850728944232335437169,
 784627365025346949932856251558476460638292092502021978739750729994291097136387089779,
 784627365025346949932856251558476460638292092502037555630326334477176688625374750067,
 784627365025346949932856251558476460638292092502058324817760473787690810610691630451,
 220852969297548333427775514329598878237980357676799447702661966261215487910048142514338686363069548,
 13163862782570620383487672467803888215898013146319332014977716674362453035632876853217291372,
 13163862782570620383487672467803888215899509723995958859565957247631154509445004528141298796,
 200864605446939397941401252255308352903721568215405066168988893206201726488914702790514,
 11972463455613815661752298608738681847078635788711228101399425826787094624890738,
 11972463455613815661752298608738681847079996918178911855253279325216821697736562,
 51421338994416485872998720577358938343352721463143696939261156660787641981162163914372200,
 3064950644637136809408588443837102552852130761910074393958253011657496223972029544,
 3064950644637136809408588443837102552852479211053801434944839507255506354620560488,
 3064950644637136809408588443837102552852196780630570461180568371590985689054932076,
 182685294427701044643437173595255765488870785343722060195828413977296202860,
 182685294427701044643437173595255765488891554531156199506342535962613083244,
 2787556372492996897025103356861202476331706548654047274958946555817842,
 166151307373821550430363616756272463579872042231474606701703026,
 166151307373821550430363616756272463579890931697406085282557810,
 713614431358207205638426459356467833940916876455436102389490318289368168,
 42534734687698316910173085889605750676447242811257499315635975272,
 42534734687698316910173085889605750676452078514535957832334799976,
 713614431358207205638426459356467833940916876455436103611362424825081201,
 42534734687698316910173085889605750676447242812479371422171688305,
 42534734687698316910173085889605750676452078515757829938870513009,
 182685294427701044643437173595255765488874720372591642525589867888040502643,
 10888892080050769129004309987739072173170494159995800171208771921267,
 10888892080050769129004309987739072173171732100035085551483671045491,
 1042948659850641524399429948712341563336810420969457877517826244227069582770568758970250247895946005204027421763584486508,
 62164584389367194437946674150964114864874507246581189547312029896774699758865720766131740227760453773346918722668,
 266994856921764230246254066870359440214223467768181216697961790119430904486949013840160424622862706220122426227476112960620,
 948556280355334387786051546492982709730140796609210044623820289622990078688025058882203891604100140469743474,
 56538360140045546757343503623782557829030799663615825508997686389897989792066910709883577717628235634,
 242830407770965603273229195902203573690916043931957771472263439245062640554305302284920275836032220668241276786,
 242830407770965603273229195902203573690916043931957771423697994143485460144134415073844196250649635960254329960,
 14473820195851659969879936927688334804231884713885651330303407715813885386769129141730195895712828322920,
 62164584389367194437946674150964114864874507246581189496899440446736035981902157384939590614024248491069766857832,
 14473820195851659969879936927688334804231884713885651315671085962264863261224365230068943431331316067436,
 862706911316612957112785394650002408279888910882809837478602392423974071241798478622363383589996,
 3705297970138024952289263853488213709883362486754726737552847888871195076817396197902769015825559229394028,
 13163862782541091264538351358795202763059828352093655954077881653815769151355530293647929202,
 784627365025346950563094100880336926165808937078336236917132184702471996608253947762,
 3369948872330519363721817947851571907343316058135975924917918645288587028351135993855467482994,
 3369948872330519363721817947851571907343316058135975924243937703376836902747015755173869876328,
 200864605446488819344152089825366253098447087892054076650785839283832831131713010627688,
 862706911316612957112785394650002408279888910882809836778987173193878279257890814426999675647080,
 3369948872330519363721817947851571907343316058135975924243937703376836902748237627280405589361,
 200864605446488819344152089825366253098447087892054076650785839283834053003819546340721,
 862706911316612957112785394650002408279888910882809836778987173193878279257892036299106211360113,
 862706911316612957112785394650002408279888910882809836606448052064470247103549913670916650591603,
 51421338994301137752102934995293760793202454500365843622601174856661518650064936682939763,
 220852969297052917020873061030400616519651561185999318215420716337632839490020362373658322927904115,
 14473820195851659969879936927688334749891563381661066564450024601076472626001235154929764964954913467500,
 14473820195851659969879936927688334749891563381661353907363936955237414816068825837901693478540322892908,
 3705297970138024952289263853488213695972240225705184167238053939813904563230597534791764266535605529308268,
 13163862782541091264538351358795202713637594007796966765863566798613167180520790820927991666,
 13163862782541091264538351358795202713637594007797228102721362079353107052219298418914389874,
 3369948872330519363721817947851571894691224065995979042088996666110601439168565352512599781234,
 3369948872330519363721817947851571894691224065996023492061073100444970798213322450157565867112,
 3369948872330519363721817947851571894691224065996090394296668692314395405368140395242083808360,
 862706911316612957112785394650002405040953360894970634774783146524313968427152730243225543996520,
 200864605446488819344152089825366252344323639034987896207628505545787987756842343296108,
 200864605446488819344152089825366252344323639034991883891615860293406699178023184329836,
 51421338994301137752102934995293760600146851592956223176406802994559280907496291831999596,
 182685294427291245796506782267321116109381945566372356741002027361707913074,
 182685294427291245796506782267321116109381945566375983518460871249232031602,
 46767435373386558923905736260434205724001778064990706458417483185766541717362,
 46767435373386558923905736260434205724001778064991323325696519004597225747560,
 46767435373386558923905736260434205724001778064992251780725983039803400090728,
 11972463455586959084519868482671156665344455184637620853354875695556234679645288,
 46767435373386558923905736260434205724001778064991323325697740876703761460593,
 46767435373386558923905736260434205724001778064992251780727204911909935803761,
 11972463455586959084519868482671156665344455184637620853354876917428341215358321,
 11972463455586959084519868482671156665344455184637778771378622745523295753626995,
 11972463455586959084519868482671156665344455184638016455866165538536076385478003,
 3064950644630261525637086331563816106328180527267230938458848491942742483951445363,
 862706911316620744949492323024688753213980564631043935992067418818213349828653771514704954485868,
 862706911316620744949492323024688753226657367745086568628407665426800707395547981533407711685740,
 862706911316620744949492323024688753239211571215859930156079244273216040227752692422335780711532,
 784627365025354033559317324966003755629554293255790922550720478119013341555413118834,
 784627365025354033559317324966003755641083778523431254714894444465972544454004993906,
 784627365025354033559317324966003755652501760065078933763360732221568505545066966898,
 200864605446490632591185235191296961441165899073482476172984442398467415438185758422120,
 200864605446490632591185235191296961444117447301998401207012977783288971380225278440552,
 200864605446490632591185235191296961447040450576660207043420347448721537419537143526504,
 11972463455587067162465169143158016290734165851681373557915589485231399086681196,
 11972463455587067162465169143158016290910091835379498743526154157273623252003948,
 11972463455587067162465169143158016291084316407243019236819401956278688576269420,
 10888892080026441510622288790871622305288988947433038954764550958962,
 10888892080026441510622288790871622305448992697510674355295262764914,
 10888892080026441510622288790871622305607449022539203030482350665586,
 2787556372486769026719305930463135310153981170542857972419725045494888,
 2787556372486769026719305930463135310194942130562732634955587267818600,
 2787556372486769026719305930463135310235506949770035975803481770390632,
 2787556372486769026719305930463135310153981170542859194291831581207921,
 2787556372486769026719305930463135310194942130562733856827693803531633,
 2787556372486769026719305930463135310235506949770037197675588306103665,
 713614431356612870840142318198562639399419179658971954819796017608942963,
 713614431356612870840142318198562639409905185424059868428976746523813235,
 713614431356612870840142318198562639420289779141129523686037739182253427,
 948556280376610787931005707602099511570501367579099242452148812944160409619470597334583423461336478480690284,
 948556280376610787931005707602099511570501367579117975294516472353092767463943725926466683023681270287789164,
 14473820196176312071701136895783989129188558465257174614521684878656029082825357644867181230739683372140,
 862706911335963730317421966539859123777661232069566942711525200997275905701345070460396003028850,
 862706911335963730317421966539859123777661232069583980132407734666315052403609775798455923535730,
 13163862782836360631064177956235643368189410889733312264544733696908250824731437792130920306,
 220852969302006714961260023434203935687081275409809137334150451455302631859544338037861376775386216,
 220852969302006714961260023434203935687081275409813498913896380074576653415324102604404716425147496,
 3369948872406108321552429556796324702256489187771727939723451826408512211131248074785515598952,
 13163862782836360631064177956235643368189410889733382304558184823184459553462679780416646252,
 13163862782836360631064177956235643368189410889733642274969600437030882080047529410208820332,
 200864605450994272324587676334162038699179243312581058724125803188230059964646404746348,
 11972463455855505008970956583867194575022413928066618886585442690542967787253618,
 11972463455855505008970956583867194575022413928066855328297242919716956821155698,
 182685294431388931411299996702075112533911345337929614037535250816499347314,
 3064950644699009282296564885470001811205737965585054434965873328778999753536926824,
 3064950644699009282296564885470001811205737965585114964044094187447540946215859304,
 46767435374435566441292799155731228808681304406509981193609024209023832913000,
 3064950644699009282296564885470001811205737965585054434965873330000871860072639857,
 3064950644699009282296564885470001811205737965585114964044094188669413052751572337,
 46767435374435566441292799155731228808681304406509981193610246081130368626033,
 784627365042946376267920610680320463668668919189773935351263572481304283311415518579,
 784627365042946376267920610680320463668668919189789430795288112300450828637222233459,
 11972463455855505008970956583867194575022413928066555185564224077856507187979635,
 51421338994414224734966441457481496873734544286310942909549260225531727834159188967255148,
 51421338994414224734966441457506605280676091009366286067242090891196137255937045105306732,
 3064950644637002035079386321156586201589594924883944077940159829957422685484051564,
 46767435373489410935659581316469027000252521508001284846204053088087427936114,
 46767435373489410935659581316491862963335816866098217421715245010269551882098,
 2787556372492874320486759025840534560838564107038058935304579635638130,
 11972463455613289199528852817016070912064645506048328920628237590550381551645800,
 11972463455613289199528852817021916918613969117721143659959102722629005281817704,
 713614431358175826044610310615176847574672411401743087437972386723361896,
 713614431358175826044610310615066940311470353438447882699419627640941676,
 713614431358175826044610310615415389455197394425034378297429758289472620,
 42534734687696446540630478299568703619590834695929627180993178732,
 649028544428961891794288304131502573283314953585839141187442,
 649028544428961891794288304131819485933372010936213316988786, 38685115839777105557578104980683477715129660914954098,
 166151307373814244299337805857664658760528628117974820143985768,
 166151307373814244299337805857745788398943234799670609149129832,
 9903389654982939022739994875054970295073193194228249704,
 166151307373814244299337805857664658760528629339846926679698801,
 166151307373814244299337805857745788398943236021542715684842865,
 9903389654982939022739994875054970296295065300763962737,
 42534734687696446540630478299562152642695329112081900362822608243,
 42534734687696446540630478299582921830129468422596022348139488627,
 2535267751675632389821438688014072395852617804128394175859]

/-- namePackList, sorted. -/
def sortedNamePack : List Nat := [38685115839777105557578104980683477715129660914954098,
 38685115840471282885488918429968040251896247689047922,
 9903389654982939022739994875054970295073193194228249704,
 9903389654982939022739994875054970296295065300763962737,
 9903389655160648418685163118071818304485439408396268648,
 9903389655160648418685163118071818305707311514931981681,
 2535267751675632389821438688014072395852617804128394175859,
 2535267751721125995183401758226385486262152834955407025523,
 649028544428961891794288304131502573283314953585839141187442,
 649028544428961891794288304131819485933372010936213316988786,
 649028544440608254766950850105854724428155921477554430701426,
 649028544440608254766950850106171637078212978827928606502770,
 166151307373814244299337805857664658760528628117974820143985768,
 166151307373814244299337805857664658760528629339846926679698801,
 166151307373814244299337805857745788398943234799670609149129832,
 166151307373814244299337805857745788398943236021542715684842865,
 166151307373821550430363616756272463579872042231474606701703026,
 166151307373821550430363616756272463579890931697406085282557810,
 166151307376795713220339417627098809453607915898253934259565672,
 166151307376795713220339417627098809453607917120126040795278705,
 166151307376795713220339417627179939092022522579949723264709736,
 166151307376795713220339417627179939092022523801821829800422769,
 42534734687696446540630478299562152642695329112081900362822608243,
 42534734687696446540630478299568703619590834695929627180993178732,
 42534734687696446540630478299582921830129468422596022348139488627,
 42534734687698316910173085889605750676447242811257499315635975272,
 42534734687698316910173085889605750676447242812479371422171688305,
 42534734687698316910173085889605750676452078514535957832334799976,
 42534734687698316910173085889605750676452078515757829938870513009,
 42534734688459702584406890912537295220123626783833353576411063667,
 42534734688459702584406890912543846197019132367681080394581634156,
 42534734688459702584406890912558064407557766094347475561727944051,
 10888892080026441510622288790871622305288988947433038954764550958962,
 10888892080026441510622288790871622305448992697510674355295262764914,
 10888892080026441510622288790871622305607449022539203030482350665586,
 10888892080050769129004309987739072173170494159995800171208771921267,
 10888892080050769129004309987739072173171732100035085551483671045491,
 2787556372486769026719305930463135310153981170542857972419725045494888,
 2787556372486769026719305930463135310153981170542859194291831581207921,
 2787556372486769026719305930463135310194942130562732634955587267818600,
 2787556372486769026719305930463135310194942130562733856827693803531633,
 2787556372486769026719305930463135310235506949770035975803481770390632,
 2787556372486769026719305930463135310235506949770037197675588306103665,
 2787556372492874320486759025840534560838564107038058935304579635638130,
 2787556372492996897025103356861202476331706548654047274958946555817842,
 2787556372542895068571690002844473504792905023253962173110312650305394,
 2787556372568001849468532919592493929843014756940725361297900739653490,
 2787556372568001849468532919592493929843252441428268154310681371504498,
 2787556372568001849468532919592493929843569354078325211661055547305842,
 713614431356612870840142318198562639399419179658971954819796017608942963,
 713614431356612870840142318198562639409905185424059868428976746523813235,
 713614431356612870840142318198562639420289779141129523686037739182253427,
 713614431358175826044610310615066940311470353438447882699419627640941676,
 713614431358175826044610310615176847574672411401743087437972386723361896,
 713614431358175826044610310615415389455197394425034378297429758289472620,
 713614431358207205638426459356467833940916876455436102389490318289368168,
 713614431358207205638426459356467833940916876455436103611362424825081201,
 713614431370981137554352640728075309963781627989719111577687279395761260,
 713614431370981137554352640728185217226983685953014316316240038478181480,
 713614431370981137554352640728423759107508668976305607175697410044292204,
 713614431377408473463944427415678446039811777776825692492262589351294056,
 713614431377408473463944427415678446039811777776825693714134695887007089,
 713614431377408473463944427415678446039872625005636647503534431105152104,
 713614431377408473463944427415678446039872625005636648725406537640865137,
 713614431377408473463944427415678446039953754644051254185230220110296168,
 713614431377408473463944427415678446039953754644051255407102326646009201,
 182685294427291245796506782267321116109381945566372356741002027361707913074,
 182685294427291245796506782267321116109381945566375983518460871249232031602,
 182685294427701044643437173595255765488870785343722060195828413977296202860,
 182685294427701044643437173595255765488874720372591642525589867888040502643,
 182685294427701044643437173595255765488891554531156199506342535962613083244,
 182685294431388931411299996702075112533911345337929614037535250816499347314,
 182685294432616569206769773418413682186191815110867377591899569279893529971,
 182685294432616569206769773418413682186207392001442982074785160768881190259,
 182685294432616569206769773418413682186228161188877121385299282754198070643,
 46767435373386558923905736260434205724001778064990706458417483185766541717362,
 46767435373386558923905736260434205724001778064991323325696519004597225747560,
 46767435373386558923905736260434205724001778064991323325697740876703761460593,
 46767435373386558923905736260434205724001778064992251780725983039803400090728,
 46767435373386558923905736260434205724001778064992251780727204911909935803761,
 46767435373489410935659581316469027000252521508001284846204053088087427936114,
 46767435373489410935659581316491862963335816866098217421715245010269551882098,
 46767435374328619830762054662755143513786393196993396101970201913491284193138,
 46767435374328619830762054662777979476869688555090328677481393835673408139122,
 46767435374435566441292799155731228808681304406509981193609024209023832913000,
 46767435374435566441292799155731228808681304406509981193610246081130368626033,
 46767435374749841716933062003825733284634195093311067809833814092727525207922,
 46767435374749841716933062003825733284634195093547204872327500380164533153650,
 46767435374749841716933062003825733284634195093707208622405135780695244959602,
 11972463455586959074903202080665229196751283149750091228328715968023845683752818,
 11972463455586959074903202080665229196751283149750328912816258761036626315603826,
 11972463455586959074903202080665229196751283149750645825466315818387000491405170,
 11972463455586959084519868482671156665344455184637620853354875695556234679645288,
 11972463455586959084519868482671156665344455184637620853354876917428341215358321,
 11972463455586959084519868482671156665344455184637778771378622745523295753626995,
 11972463455586959084519868482671156665344455184638016455866165538536076385478003,
 11972463455587067162465169143158016290734165851681373557915589485231399086681196,
 11972463455587067162465169143158016290910091835379498743526154157273623252003948,
 11972463455587067162465169143158016291084316407243019236819401956278688576269420,
 11972463455613289199528852817016070912064645506048328920628237590550381551645800,
 11972463455613289199528852817021916918613969117721143659959102722629005281817704,
 11972463455613815661752298608738681847078635788711228101399425826787094624890738,
 11972463455613815661752298608738681847079996918178911855253279325216821697736562,
 11972463455828126676675085993665316739529316658430309402104371689853768753443944,
 11972463455828126676675085993671162746078640270103124141435236821932392483615848,
 11972463455855505008970956583867194575022413928066555185564224077856507187979635,
 11972463455855505008970956583867194575022413928066618886585442690542967787253618,
 11972463455855505008970956583867194575022413928066855328297242919716956821155698,
 11972463455935959479534863872979387720866353943887633359317456407738246453228648,
 11972463455935959479534863872979387720866353943887633359317457629610352988941681,
 11972463455935959479534863872979387720866353943948084447315840097322120487335016,
 11972463455935959479534863872979387720866353943948084447315841319194227023048049,
 11972463455935959479534863872979387720866353943989045407335714759857982709658728,
 11972463455935959479534863872979387720866353943989045407335715981730089245371761,
 3064950644630261523175219732650298674368328486336023354452151287814104495040722024,
 3064950644630261523175219732650298674368328486336023354452151289035976601576435057,
 3064950644630261523175219732650298674368328486336084201680962242825376336794580072,
 3064950644630261523175219732650298674368328486336084201680962244047248443330293105,
 3064950644630261523175219732650298674368328486336165331319376849507072125799724136,
 3064950644630261523175219732650298674368328486336165331319376850728944232335437169,
 3064950644630261525637086331563816106328180527267230938458848491942742483951445363,
 3064950644637002035079386321156586201589594924883944077940159829957422685484051564,
 3064950644637136809408588443837102552852130761910074393958253011657496223972029544,
 3064950644637136809408588443837102552852196780630570461180568371590985689054932076,
 3064950644637136809408588443837102552852479211053801434944839507255506354620560488,
 3064950644692000429228822014378793133420550739893731081198050159379089809144376428,
 3064950644699009282296564885470001811205737965585054434965873328778999753536926824,
 3064950644699009282296564885470001811205737965585054434965873330000871860072639857,
 3064950644699009282296564885470001811205737965585114964044094187447540946215859304,
 3064950644699009282296564885470001811205737965585114964044094188669413052751572337,
 3064950644719605626760925150911784723393092299547085935946820554737604568790690924,
 3064950644719605626760925150911784723393353636404881216686760426436112166777089132,
 3064950644719605626760925150911784723393702085548608257673346922034122297425620076,
 3064950644719605626760925151482723256541786609635234139985269154261337497988785523,
 3064950644719605626760925151482723256541786609650709618512855378794809250720015731,
 3064950644719605626760925151482723256541786609661195624277943292403989979634886003,
 784627365025346949932856251558476460638292092502021978739750729994291097136387089779,
 784627365025346949932856251558476460638292092502037555630326334477176688625374750067,
 784627365025346949932856251558476460638292092502058324817760473787690810610691630451,
 784627365025346950563094100880336926165808937078336236917132184702471996608253947762,
 784627365025354033559317324966003755629554293255790922550720478119013341555413118834,
 784627365025354033559317324966003755641083778523431254714894444465972544454004993906,
 784627365025354033559317324966003755652501760065078933763360732221568505545066966898,
 784627365042946376267920610680320463668668919189773935351263572481304283311415518579,
 784627365042946376267920610680320463668668919189789430795288112300450828637222233459,
 200864605446011770207619633823207669072954893316807736523207703572719971091066898247538,
 200864605446488819344152089825366252344323639034987896207628505545787987756842343296108,
 200864605446488819344152089825366252344323639034991883891615860293406699178023184329836,
 200864605446488819344152089825366253098447087892054076650785839283832831131713010627688,
 200864605446488819344152089825366253098447087892054076650785839283834053003819546340721,
 200864605446490632591185235191296961441165899073482476172984442398467415438185758422120,
 200864605446490632591185235191296961444117447301998401207012977783288971380225278440552,
 200864605446490632591185235191296961447040450576660207043420347448721537419537143526504,
 200864605446939397941401252255308352903721568215405066168988893206201726488914702790514,
 200864605450994272324587676334162038699179243312581058724125803188230059964646404746348,
 200864605452344074355403990690154723632289696943117824323269996280898541391277394653042,
 200864605452344074355403990690154723632306823915430295841842695712531935332913987612530,
 200864605452344074355403990690154723632329659878513591199939628288043127255096111558514,
 51421338994179013173150626258741163282676452689102780549936342584100209457456573006901106,
 51421338994179013173150626258741163282676452689102780549941172114616312599313125951370344,
 51421338994179013173150626258741163282676452689102780549941172114616313821185232487083377,
 51421338994301137752102934995293760600146851592956223176406802994559280907496291831999596,
 51421338994301137752102934995293760793202454500365843622601174856661518650064936682939763,
 51421338994414224734966441457481496873734544286310942909549260225531727834159188967255148,
 51421338994414224734966441457506605280676091009366286067242090891196137255937045105306732,
 51421338994416485872998720577358938343352721463143696939261156660787641981162163914372200,
 51421338995336944673264660360780198565759765481186181577199589986550192247907169840753772,
 51421338995336944673264660360805306972701312204241524734892420652214601669685025978805356,
 51421338995800083034983421616679609249866162417438163026757119047910026596167013031179368,
 51421338995800083034983421616679609249870546922350155735511730102408175445225980828808296,
 51421338995800083034983421616679609249876392928899479347184544841739040577304604558980200,
 51421338995800083034983421626258368343224966975758004377107092153141410274523779761794156,
 51421338995800083034983421626258368343224966976017639823067768200763965099994218907135084,
 51421338995800083034983421626258368343224966976193565806765893386374529772036443072457836,
 13163862782509827372326560322237737800365171888410311820783698871380167498324335999372652402,
 13163862782509827372326560322237737800365171888410311820783703701529653621108882689766683752,
 13163862782509827372326560322237737800365171888410311820783703701529653622330754796302396785,
 13163862782509827372326560322237737800365171888410311820784940061341776339304506649513059699,
 13163862782541091253964714829346896211044124306998403174064205778005862134156014024298425452,
 13163862782541091253964714829346896211044124306998664510922001058745802005854521622284823660,
 13163862782541091253964714829346896211044124306999012960065728099732388501452531752933354604,
 13163862782541091264538351358795202713637594007796966765863566798613167180520790820927991666,
 13163862782541091264538351358795202713637594007797228102721362079353107052219298418914389874,
 13163862782541091264538351358795202763059828352093655954077881653815769151355530293647929202,
 13163862782570620383487672467803888215898013146319332014977716674362453035632876853217291372,
 13163862782570620383487672467803888215899509723995958859565957247631154509445004528141298796,
 13163862782836360631064177956235643368189410889733312264544733696908250824731437792130920306,
 13163862782836360631064177956235643368189410889733382304558184823184459553462679780416646252,
 13163862782836360631064177956235643368189410889733642274969600437030882080047529410208820332,
 3369948872322515807315599442492860876893484003433039826120626911073322879571030015839399015528,
 3369948872322515807315599442492860876893484003433039826120626911073322879572251887945934728561,
 3369948872322515807315599442492860876893484003433039826120628147591591327317754314986233292147,
 3369948872330519363721817947851571894691224065995979042088996666110601439168565352512599781234,
 3369948872330519363721817947851571894691224065996023492061073100444970798213322450157565867112,
 3369948872330519363721817947851571894691224065996090394296668692314395405368140395242083808360,
 3369948872330519363721817947851571907343316058135975924243937703376836902747015755173869876328,
 3369948872330519363721817947851571907343316058135975924243937703376836902748237627280405589361,
 3369948872330519363721817947851571907343316058135975924917918645288587028351135993855467482994,
 3369948872406108321552429556796324702256489187771727939723451826408512211131248074785515598952,
 3369948872428754241780673519698468427741591435723276574858090816407439869366078801479616065394,
 3369948872428754241780673519698468427741591435740292043444569681864431622408109501308679122802,
 3369948872428754241780673519698468427741591435751821528712210014028605588755068704207270997874,
 862706911314564046672793457278172384484731904878858195486880489234770657170497564401292110226803,
 862706911316612956419831551056078190086987730583447350415471790292451345229663423467432284680050,
 862706911316612956419831551056078190086987730583464477387784261811024044661296817409068877639538,
 862706911316612956419831551056078190086987730583487313350867557169120977236808009331251001585522,
 862706911316612957112785394650002405040953360894970634774783146524313968427152730243225543996520,
 862706911316612957112785394650002408279888910882809836606448052064470247103549913670916650591603,
 862706911316612957112785394650002408279888910882809836778987173193878279257890814426999675647080,
 862706911316612957112785394650002408279888910882809836778987173193878279257892036299106211360113,
 862706911316612957112785394650002408279888910882809837478602392423974071241798478622363383589996,
 862706911316620744949492323024688753213980564631043935992067418818213349828653771514704954485868,
 862706911316620744949492323024688753226657367745086568628407665426800707395547981533407711685740,
 862706911316620744949492323024688753239211571215859930156079244273216040227752692422335780711532,
 862706911335963730317421966539859123777661232069566942711525200997275905701345070460396003028850,
 862706911335963730317421966539859123777661232069583980132407734666315052403609775798455923535730,
 862706911341761085895852421042807917501847407545158803163671249000304606557716173178781712741480,
 862706911341761085895852421042807917501847407549514763121809838557294495336476032335021855437928,
 862706911341761085895852421042807917501847407552466311350325763591323030721297588277061375456360,
 220852969296528395948235125063212130428091367648987698044662228956184226202162628454183256855768172,
 220852969297052916843476877070356016662268859029362521706360778314867544378793836407662664878093416,
 220852969297052916843476877070356016662268859029366906211272771023622155433291985256721632675722344,
 220852969297052916843476877070356016662268859029372752217822094635294970172622850388800256405894248,
 220852969297052917020873061030400616519651561185999318215420716337632839490020362373658322927904115,
 220852969297548333427775514329598878237980357676799447702661966261215487910048142514338686363069548,
 220852969302006714961260023434203935687081275409809137334150451455302631859544338037861376775386216,
 220852969302006714961260023434203935687081275409813498913896380074576653415324102604404716425147496,
 220852969303490837989338219745818369838234259959921210302238199245952221381027520352439956861447276,
 220852969303490837989338219745818369838253091265127370344529706614221844380275827418773348964985964,
 220852969303490837989338219745818369838278199672068917067585049771914675045940236840551205103037548,
 56538360139911269362748192016182305389591390118140850699428220487824007476870626408077939328206072940,
 56538360140045546757343503623782557829030799663615825508997686389897989792066910709883577717628235634,
 14473820195817284956863537156142670179735395870244057779053619134077422025806120427065010278730347670636,
 14473820195817284956863537156142670179735395870244057779054983836872489873444094423988242292310297177970,
 14473820195851659969879936927688334749891563381661066564450024601076472626001235154929764964954913467500,
 14473820195851659969879936927688334749891563381661353907363936955237414816068825837901693478540322892908,
 14473820195851659969879936927688334804231884713885651315671085962264863261224365230068943431331316067436,
 14473820195851659969879936927688334804231884713885651330303407715813885386769129141730195895712828322920,
 14473820196176312071701136895783989129188558465257174614521684878656029082825357644867181230739683372140,
 3705297970129224948957065511972523566012261342782478791437727857890034154429252536685410720184323870453618,
 3705297970129224948957065511972523566012261342782478791438075862239357407601688172540990026831436077560936,
 3705297970138024952289263853488213695972240225705184167238053939813904563230597534791764266535605529308268,
 3705297970138024952289263853488213709883362486754726737552847888871195076817396197902769015825559229394028,
 3705297970246035342968133010421282221680300634988840702714469349751780979203538100253140246866266094136428,
 3705297970246035342968133010421282221680300635007549408277360120934619679710989074766757814069883509501036,
 3705297970246035342968133010421282221680300635020226211391402753570959926319576432333652024088586266700908,
 948556280353081586933008771064966032899138903752314570608057983570897929883654967472538128515243075617058674,
 948556280353081586933008771064966032899138903752314570608058331619848743533888649391465144367186910836126824,
 948556280355334387024140737949391382641275826690346334456909658039462093678748163297285269881137791544421484,
 948556280355334387024140737949391382641275826690365165762115818081753601047017786296533576947471183647960172,
 948556280355334387024140737949391382641275826690390274169057364804808944204710616962197986369249039786011756,
 948556280355334387786051546492982709730140796609210044623820289622990078688025058882203891604100140469743474,
 948556280376610787931005707602099511570501367579099242452148812944160409619470597334583423461336478480690284,
 948556280376610787931005707602099511570501367579117975294516472353092767463943725926466683023681270287789164,
 242830407770388886254850245392631304422179559360592530075662843794149870050215671672969760899902227357967021160,
 242830407770965603273229195902203573690916043931957771423697994143485460144134415073844196250649635960254329960,
 242830407770965603273229195902203573690916043931957771472263439245062640554305302284920275836032220668241276786,
 62164584389367194437946674150964114864874507246581189496899440446736035981902157384939590614024248491069766857832,
 62164584389367194437946674150964114864874507246581189547312029896774699758865720766131740227760453773346918722668,
 15914133603640206049597865682051485166611959602255792051040140637485041389704592495453557384703180887357482558647404,
 4074018202531892748697053614605180202652661658177482765065893368367573057944743216841953096580986397989951467379846252,
 1042948659848164543666445725338926131879081384493435587856868319618230247988326187582078730262019596100454359671731481708,
 1042948659850641524399429948712341563336810420969457877517826244227069582770568758970250247895946005204027421763584486508,
 266994856921764230246254066870359440214223467768181216697961790119430904486949013840160424622862706220122426227476112960620]

/-- The packed combinations of the full domain, evaluated. -/
def comboPackList : List Nat := [218317952384578950588986076904475310870827747647137740543165872653099614209692911889508,
 937668465621451807509695138104062376229638456593797543640230699348363596060847944448506406728805,
 14307685327475766105799791536011693973230567269802818964236918630193536316846441253648560741,
 198559020995688979918655674650358660865847694046476809073914054444373863524,
 852804501502261525738226862908106683089170889246631798994896910553350875092728509541,
 13012763999973472987949018293885905198504194477029904159468031472073065577673317,
 50831109374896378859175852710491817181657009675898063122921998566401254190180,
 218317952384578950588986076904475310870827747647137740542693611801652272840266045551717,
 3331267583993209084914948683234791730817073786119655464823816098047679174665400933,
 3029770217829726866434565348051319937722051541294793873860416686877796,
 13012763999973472987949018293855276462148968107887533183291638940752866149758053,
 198559020995688979918655674649891303438552369810295611317316274571281003109,
 2755559960705547261054166800069033286237371865120941632612,
 11835039913397370572010020890825468506724919053684969076853368255589,
 180588377584798745300445875409324165446852402552572610892624485,
 705423349940620098829866700817672521276767198099602603076708,
 3029770217829726866434565348051319937721579280443346532490989820540005,
 46230624661708478796914144104786986354394215094655562775292899941,
 705423349940620098829866700819015983629440045881310990396516,
 3029770217829726866434565348057090064589716379852970203038466273539173,
 46230624661708478796914144104875031503138982846877603646683837029,
 180588377584798745300445875409669280537456117020056417737469028,
 775621175764410077807248729102620162084223325636291290259023849054106725,
 11835039913397370572010020890848085969302724085026417399422827983461,
 49021975149432387351836055829311745716876659124118861108932255274055607348324,
 210547780052136816639339905340524106042653326203830513279630329881592352526528841610341,
 3212704163393200937489927754829774567301228732358253681634984281640514863237526117,
 44585226668852908325639924286689843681303190463628741379116067940,
 191492090427470263093109593083249006706549449701744521708947129250395288677,
 2921937414969944200029138078052505595497885890224373195028330686280293,
 11413818027226344531363820617392599982413616758688958421695258520676,
 49021975149432387351836055829311745716876659123646600257484913904628741010533,
 748015978232305715207459347981441432447458787897439579124227042468786789,
 680316569043776066973458356619179068681671031296248701873252,
 2921937414969944199998509341697279226355514914047980663708131258365029,
 44585226668852908325172566859394519445121992707030961506023207525,
 618744315073650856878392329798504583896127597668,
 2657486597827250261615071705541823457539957973087087064165,
 40550027432666782556382319725674796410223198298534501,
 158398544658854619360868436428417174106050210131044,
 680316569043776066973458356618706807830223689926821835535461,
 10380807022762696334433873849772747922214113151205864037,
 158398544658854619362211898781090021887758597450852,
 680316569043776066979228483486843907239847360474298288534629,
 10380807022762696334521918998517515674436154022596801125,
 40550027432666782556727434816278510877707005143379044,
 174161041675206673146687597321887972647331842562596844892943461,
 2657486597827250261637689168119628488881406295656546792037,
 13771713172750860541545759365679432720378798693003893879031756991261326441417412443110901572978952727652,
 59149057686857344381795885763078868353859253118219268211095976422886754855467846328104782757019560941655316067429,
 902542994489400396450742885789167302762744951144703189256225226179302289664731541871716045486755226017165925,
 12525300164953351251411513081329242341215648314577168893294362525249495266457551125921492068,
 53795754581058048990413122522185284063979682394546460464967800747114556409941987858082466355564606565,
 820858071610382827612504921297993226073908727944129340590939342454750921782562070594970961932901,
 3206476842228057920361347348820286039351205968531755236683356806463870788213133716877447097444,
 13771713172750860541545759365679432720378798693003893879031756991261326440945151591663560203552086389861,
 210139666332258003868801259852286265874920634353697111191280471668416235976335931269286953035854437,
 191120913161519641897758683491962315997553227449185355621323216080754051358944163097700,
 820858071610382827612504921297993226073908727913500604235712973312379945606169539274771534017637,
 12525300164953351251411513081329242341215648314109811465999038289068297509859771252828631653,
 173823457918406022052075680669042700171806452498626964025653207981405858916,
 746566067037186101163119857390477796865442294723380295393949033317626020206991209573,
 11391694138140657061204831808326382398459507670950016714385208638275994427683429,
 44498805227111941645331374251274931243982451839648502790567221871881445010532,
 191120913161519641897758683491962315997553227449185355620850955229306709989517296759909,
 2916273699364008207668436942931553894005633963763204278882613452595628960267989605,
 44498805227111941645331374251274931243982451840991965143240069653589832330340,
 191120913161519641897758683491962315997553227454955482488988054638930380536993749759077,
 2916273699364008207668436942931553894005633963851249427627381204817669831658926693,
 11391694138140657061204831808326382398459507671295131804988923105759801272527972,
 48926953769349028325826222973942352895373626228473709066436874381497095698646882966402149,
 746566067037186101163119857390477796865442294745997757971754064659074342776450937445,
 3662767443833796125780927626015996170286652170039230446394212976102734790364223648951616236644,
 15731466384119671219760586614281622324242418015645925804270625856020075460775756500676978102788557993061,
 240043127199091662899178872898584325015906036615691006534891141601868827221309761057699701742465637,
 3331267583993209087367111011204539109063855148669272645196736426105845784079068260,
 14307685327475766116331748539124985040182235039215743931227394436056528277040755714832823397,
 218317952384578950749690987230300675051608811023189452075613318421272709311985875251813,
 852804501502261526365980418868362011920346918059333797170364525083097149365786602596,
 3662767443833796125780927626015996170286652170039230446394212975630473938916882279524749898853,
 55889395810452211391920892730956972813211855621936499731357009515845854780842770845495909,
 50831109374896378896592880419991136300605739156706976455925577842835377974372,
 218317952384578950749690987230300675020980074667963082933242342244880177991786447336549,
 3331267583993209087367111011204539108596497721373948409015538669508065910986207845,
 46230624661708478830944732562776276882328365132920874115810290788,
 198559020995688980064815939140590376174241168579041847283139795534691267685,
 3029770217829726868664793993234106081760271737351102406060323274846821,
 11835039913397370580721851536070726881876061474027744402288979569764,
 50831109374896378896592880419991136300605739156234715604478236473408511636581,
 775621175764410078378187262267931156930629564761882257148417145141817957,
 11835039913397370580721851536070726883219523826700592183997366889572,
 50831109374896378896592880419991136306375866024371815014101907020884964635749,
 775621175764410078378187262267931157018674713506650009370458016532755045,
 3029770217829726868664793993234106082105386827954816873544130119691364,
 13012763999973472997527777387517730894437327251495117037541006478523033974830181,
 198559020995688980064815939140590376196858631156846878624588118104150995557,
 829658071966367073254703446462294001607724977735906200805735445722025543379950539491971667946596,
 3563354285957960991560187580734039634042150200338045257384242588604082815693516869215574770069261275722853,
 54372471404387832512820245067352899689363864140900348776004678170838666010948438556145861810605879909,
 754569620736553654982984377477163435840088802920860144518642706063067889616384781412,
 3240851843618621379901185337743335943780175694280883596897404084849817499330112301976629900389,
 49451474664590780332964864162343382931216059788221490431173768384549217213905973092381285,
 193169822908557735675644000634153839575062733547740196996772532752145380370436049169508,
 829658071966367073254703446462294001607724977735906200805735445721553282528503198122544801608805,
 12659577514135239765239005225559906030391311305784701550380484706444599647956903498430640741,
 11513818675789698104598760642656912778314536216637646793860801823524018908130404,
 49451474664590780332964864162343382931185431051866264062031397408372824682585773664466021,
 754569620736553654982984377477163435839621445493564820282461508306470109743291920997,
 10471757082804922997273716321303175189600129867028203562139751378020,
 44975854202303508221088908760378565540291157096238963009020937630226814432357,
 686277072178703433549330272832924889225634110965560348648397326367683173,
 2680769813198060287302071378253612848537633245959220112536417897901156,
 11513818675789698104598760642656912778314536216637174533009354482154592041792613,
 175686930477748078988628549845228771641762332407183449295186689936907924069,
 2680769813198060287302071378253612848538976708311892960318126285220964,
 11513818675789698104598760642656912778320306343505311632418978152702068494791781,
 175686930477748078988628549845228771641850377555928217047408730808298861157,
 686277072178703433549330272832924889225979226056164063115881133212527716,
 2947537581002162714777282724520169671250003529486615710293189325372906017694774373,
 44975854202303508221088908760378565540313774558816768040362385952796274160229,
 195105049730578749335371119491318408871108785139742927143896895607376042943909485702244,
 837969807877289339548000694238120722024168511433486661930347852629606160817982805155377555010661,
 12786404539143208916442881686983043243776985342918192473302426950524996350372058635040027237,
 177447009019105052480309604553729885875426393922446484014858135247717493860,
 762129100510073239591293435512962534652768691952120809154002468968493174835762000997,
 11629167183076068719349570244033241800731944152101452776397742751600993735373413,
 45426434308890893434959258765754850784109156844146299907803683252057223556196,
 195105049730578749335371119491318408871108785139742927143424634755928701574482619364453,
 2977066798867473592153489982472509900987377702937971910757822185606828783036625509,
 2707626480394059028325036690571022467775437464695210056430974560463972,
 11629167183076068719349570244002613064376717782959081800221350220280794307458149,
 177447009019105052480309604553262528448131069686265286258260355374624633445,
 2462571938298478042565908881962079674644851548822560140388,
 10576665939039293079394674572543056514745957816967844790019609949285,
 161387114548329056997599404488266853557524991103641881418232421,
 630418416204410378896872673782292396709081997127216941067364,
 2707626480394059028325036690571022467774965203843762715061547694126181,
 41315101324372238591385447548996314510726397763729296029848531557,
 630418416204410378896872673783635859061754844908925328387172,
 2707626480394059028325036690576792594643102303253386385609024147125349,
 41315101324372238591385447549084359659471165515951336901239468645,
 161387114548329056997599404488611968648128705571125688263076964,
 693152378980879111251209392787664009777890122026797832997086664692167781,
 10576665939039293079394674572565673977323762848309293112589069677157,
 54372471599436999499985391790921768635344917849547273953673757049611753881601382404595894038085332068,
 233527987322270724864805610219755865983284971843612190036981405581531932418678993536129204989459559749341246565,
 3563354298740703199231042636409849029285964536187930145827963342003355902384628197267596511686540380172901,
 49451474841986964293014709065502546432385240995742855333149925217741614150634478357802084,
 212392467185300779296817936683288158731816085349794038881538113475045911755225902198459797201843301,
 3240851855244457691907011973316774882992799153897003767113313499069914424975981180236975141477,
 12659577559548662859011765520768651886690621694910170965286380855741853222563055101142461540,
 54372471599436999499985391790921768635344917849547273953673757049611753409340530957254524611218994277,
 829658074942581169128195065169094370046156583397632964381008255761898092793892379115052417249893,
 754569623443404606521830887840309851568378303960959290127955460152341576428955462756,
 3240851855244457691907011973316774882992799123268267411886944356698938248583449860037547226213,
 49451474841986964293014709065502546432385240528385428037825689036543857552854605264941669,
 686277074640570032462920505932115567310009559115277888536813323944553572,
 2947537591575799244225901905626210357688977749847497225217546518400591369041179749,
 44975854363644397647489958276767125819228786466178851703148598004610320659045,
 175686931107985928310507649518621585231362447133511139465424839571350842468,
 754569623443404606521830887840309851568378303960959289655694608705000207002089124965,
 11513818717092965797757429318852384209722569335341786036006082286154628869747301,
 175686931107985928310507649518621585231362448476973492138272621279738162276,
 754569623443404606521830887840309851568378309731086157792794018328670754478542124133,
 11513818717092965797757429318852384209722569423386934780773834508195500260684389,
 44975854363644397647489958276767125819228786811293942306863065488417165503588,
 193169823601511579269588707287119322001504847296263605650887662623057994322989811856485,
 2947537591575799244225901905626210357688977772464959803022577859848913938500907621,
 829658074942581169128195051257972108992033401499220724789569539630324348670875426901395348483172,
 3563354298740703199231042576662033867400930983978790382456617654630019007413911026231531640181806927541349,
 54372471599436999499985390879242460134901901000652929419809229349212936514494491977409852138250924645,
 754569623443404606521830875188217859424215386297165173154616731726357179576946879588,
 3240851855244457691907011918976453550750130474606330956209256014179109707497787643419691152485,
 49451474841986964293014708236335045635225379556371016787860962130418544120761370758443621,
 193169823601511579269588704048183772012599138892074284327581883321947438600339946302564,
 829658074942581169128195051257972108992033401499220724789569539629852087819428085531968482145381,
 12659577559548662859011765308501771682617697166430980297692406305387147336111885300942598757,
 11513818717092965797757429125796781302242248975675504286475151580349111833554020,
 49451474841986964293014708236335045635194750820015790418718591154242151589441171330528357,
 754569623443404606521830875188217859423748028869869848918435533969759399703854019173,
 10471757120370026130110481177140883394024284803595066498859259227236,
 44975854363644397647489957522643676961883785061230593839545741367824833672293,
 686277074640570032462920494425104934110775528888406278069246992773902949,
 2680769822814726689308283181348066148870216909720337024336611907300452,
 11513818717092965797757429125796781302242248975675032025623704238979684967216229,
 175686931107985928310507646572826863132358535395432007226924204536900186725,
 2680769822814726689308283181348066148871560372073009872118320294620260,
 11513818717092965797757429125796781302248019102543169125033327909527161420215397,
 175686931107985928310507646572826863132446580544176774979146245408291123813,
 686277074640570032462920494425104934111120643979009992536730799618747492,
 2947537591575799244225901856203976013375497995800307228402462863120129806603220069,
 44975854363644397647489957522643676961906402523808398870887189690394293400165,
 754600067296183474648688489824485840826891995925761353599931076931531326164958800996,
 3240982610596507169231762153087795466366562719825310257612395843274987077078008831525173425253,
 49453470010322680194576448869137504064431193844990696069525083057784836991553320039838309,
 686304763163373968062559006124943917554348441559124105995276773218675812,
 2947656512875716697846439413376897815730046859085005285654951271444301328947442789,
 44977668958674876370947867025404324580841779466018757410506458616239195779685,
 175694019369823735824015105567985642893913201039135771134791482585526135908,
 754600067296183474648688489824485840826891995925761353127670225484189956738092463205,
 11514283253420768350962653958503507092695495543300801897089694602731620900631141,
 10472179613698943604470199671288856357712161336943456259116978760804,
 44977668958674876370947866994775588225615410323647781234113927296039767864421,
 686304763163373968062559005657586490259024205377926349397496900125815397,
 9524391874673659553509605458465426961301907600046648420,
 40906951616011498454961717465972095145468350724615883098291270757,
 624190545898612952498805503325990221335881816483237208617573,
 2438244319916456845698458997367149302093288974253487123556,
 10472179613698943604470199671288856357239900485496114889690112423013,
 159792779750044915839694208851453496661985786216683112187130469,
 2438244319916456845698458998710611654766136755961874443364,
 10472179613698943604470199677058983225376999895119785437166565422181,
 159792779750044915839694208939498645406753538438723983578067557,
 624190545898612952498805503671105311939596283967044053462116,
 2680877981106929562744371117332205254952444367081583353091123776156773,
 40906951616011498454961717488589557723273382066064205667750998629,
 912769013008809843099336467652065352884809786912090239394554698891075002891344023699087000431716,
 3920313059675036835994541407865782597494957289968156405200423272220294603701428023272627613593018082358373,
 59819230036545361877358114744045754966658894195070745928961536746525491389487121937143372240350704229,
 830158581274017563463836693383259765036936902935931574933924547522658703510298258532,
 3565503957065663449606783076765880284706288230125352497634979292541416950546493099660674167909,
 54405272782374015039166001537565311961460696870809211694869679146444960793257486728917605,
 212520596806148496246742193506114499849455847151598483183084684165800628727277899312228,
 912769013008809843099336467652065352884809786912090239394554698890602742039896682329660134093925,
 13927749832287747850026496393616719862133938398927158193886637861489910004270890989383938661,
 12667214680084496512814890951282650223334801414621524821437734218842482254900324,
 54405272782374015039166001537565311961430068134453985325727308170268568261937287301002341,
 830158581274017563463836693383259765036469545508636250697743349766060923637205398117,
 11520764637757107732627347060117836211552277213396384975463926819940,
 49481307344080064503183167778447852434901568025863486554243329799439561880677,
 755024831300049812365465816931882513960290039457145485752010488129352293,
 2949315747265819579552600847390166070157382966629474554347406811032676,
 12667214680084496512814890951282650223334801414621052560586286877473055388562533,
 193286356812812751965559249134561923573834250101029244393711659347895218789,
 2949315747265819579552600847390166070158726428982147402129115198352484,
 12667214680084496512814890951282650223340571541489189659995910548020531841561701,
 193286356812812751965559249134561923573922295249774012145933700219286155877,
 755024831300049812365465816931882513960635154547749200219494294974196836,
 3242806958101631107280612083528358457175191420170488485352884018574432634467873893,
 49481307344080064503183167778447852434924185488441291585584778122009021608549,
 45417600395720584344253361679734126808578779694554515249981334220568105938020,
 195067108362416568112577793952517700617962711027700512287803095087785667224519284192357,
 2976487859533944215584988311043055734527018906062324711422776719479157970811843173,
 41307066927147920381915684338067991856022472069600782286706011236,
 177412501545783532594739694061461432846010858180008795697420093885209736293,
 2707099938137566110149226288779623914276288729553356867948145210126949,
 10574609133349867617770415190545405915141752849817800894038284004452,
 45417600395720584344253361679734126808578779694082254398533992851141239600229,
 693017584163216924198201929927583722054729914765659399391699560573530725,
 630295821031920171836064558575022394101581944473312314354788,
 2707099938137566110118597552424397545133917753376964336627945782211685,
 41307066927147920381448326910772667619841274313003002413613150821,
 573250709778149186455325033034159906083131976804,
 2462093050905938171234627181931836447461484977684991800421,
 37568558516020785083536181364926703605070717289591397,
 146752181703206191732563208456744936585923331189860,
 630295821031920171836064558574550133250134603103885448016997,
 9617550980101320981385262429421236164095078012916429413,
 146752181703206191733906670809417784367631718509668,
 630295821031920171841834685442687232659758273651361901016165,
 9617550980101320981473307578166003916317118884307366501,
 37568558516020785083881296455530418072554524134435940,
 161355730184171563991514785022583863954829036335925129688216677,
 2462093050905938171257244644509641478802933300254451528293]

/-- comboPackList, sorted. -/
def sortedComboPack : List Nat := [573250709778149186455325033034159906083131976804,
 618744315073650856878392329798504583896127597668,
 146752181703206191732563208456744936585923331189860,
 146752181703206191733906670809417784367631718509668,
 158398544658854619360868436428417174106050210131044,
 158398544658854619362211898781090021887758597450852,
 37568558516020785083536181364926703605070717289591397,
 37568558516020785083881296455530418072554524134435940,
 40550027432666782556382319725674796410223198298534501,
 40550027432666782556727434816278510877707005143379044,
 9524391874673659553509605458465426961301907600046648420,
 9617550980101320981385262429421236164095078012916429413,
 9617550980101320981473307578166003916317118884307366501,
 10380807022762696334433873849772747922214113151205864037,
 10380807022762696334521918998517515674436154022596801125,
 2438244319916456845698458997367149302093288974253487123556,
 2438244319916456845698458998710611654766136755961874443364,
 2462093050905938171234627181931836447461484977684991800421,
 2462093050905938171257244644509641478802933300254451528293,
 2462571938298478042565908881962079674644851548822560140388,
 2657486597827250261615071705541823457539957973087087064165,
 2657486597827250261637689168119628488881406295656546792037,
 2755559960705547261054166800069033286237371865120941632612,
 624190545898612952498805503325990221335881816483237208617573,
 624190545898612952498805503671105311939596283967044053462116,
 630295821031920171836064558574550133250134603103885448016997,
 630295821031920171836064558575022394101581944473312314354788,
 630295821031920171841834685442687232659758273651361901016165,
 630418416204410378896872673782292396709081997127216941067364,
 630418416204410378896872673783635859061754844908925328387172,
 680316569043776066973458356618706807830223689926821835535461,
 680316569043776066973458356619179068681671031296248701873252,
 680316569043776066979228483486843907239847360474298288534629,
 705423349940620098829866700817672521276767198099602603076708,
 705423349940620098829866700819015983629440045881310990396516,
 159792779750044915839694208851453496661985786216683112187130469,
 159792779750044915839694208939498645406753538438723983578067557,
 161355730184171563991514785022583863954829036335925129688216677,
 161387114548329056997599404488266853557524991103641881418232421,
 161387114548329056997599404488611968648128705571125688263076964,
 174161041675206673146687597321887972647331842562596844892943461,
 180588377584798745300445875409324165446852402552572610892624485,
 180588377584798745300445875409669280537456117020056417737469028,
 40906951616011498454961717465972095145468350724615883098291270757,
 40906951616011498454961717488589557723273382066064205667750998629,
 41307066927147920381448326910772667619841274313003002413613150821,
 41307066927147920381915684338067991856022472069600782286706011236,
 41315101324372238591385447548996314510726397763729296029848531557,
 41315101324372238591385447549084359659471165515951336901239468645,
 44585226668852908325172566859394519445121992707030961506023207525,
 44585226668852908325639924286689843681303190463628741379116067940,
 46230624661708478796914144104786986354394215094655562775292899941,
 46230624661708478796914144104875031503138982846877603646683837029,
 46230624661708478830944732562776276882328365132920874115810290788,
 10471757082804922997273716321303175189600129867028203562139751378020,
 10471757120370026130110481177140883394024284803595066498859259227236,
 10472179613698943604470199671288856357239900485496114889690112423013,
 10472179613698943604470199671288856357712161336943456259116978760804,
 10472179613698943604470199677058983225376999895119785437166565422181,
 10574609133349867617770415190545405915141752849817800894038284004452,
 10576665939039293079394674572543056514745957816967844790019609949285,
 10576665939039293079394674572565673977323762848309293112589069677157,
 11413818027226344531363820617392599982413616758688958421695258520676,
 11520764637757107732627347060117836211552277213396384975463926819940,
 11835039913397370572010020890825468506724919053684969076853368255589,
 11835039913397370572010020890848085969302724085026417399422827983461,
 11835039913397370580721851536070726881876061474027744402288979569764,
 11835039913397370580721851536070726883219523826700592183997366889572,
 2680769813198060287302071378253612848537633245959220112536417897901156,
 2680769813198060287302071378253612848538976708311892960318126285220964,
 2680769822814726689308283181348066148870216909720337024336611907300452,
 2680769822814726689308283181348066148871560372073009872118320294620260,
 2680877981106929562744371117332205254952444367081583353091123776156773,
 2707099938137566110118597552424397545133917753376964336627945782211685,
 2707099938137566110149226288779623914276288729553356867948145210126949,
 2707626480394059028325036690571022467774965203843762715061547694126181,
 2707626480394059028325036690571022467775437464695210056430974560463972,
 2707626480394059028325036690576792594643102303253386385609024147125349,
 2921937414969944199998509341697279226355514914047980663708131258365029,
 2921937414969944200029138078052505595497885890224373195028330686280293,
 2949315747265819579552600847390166070157382966629474554347406811032676,
 2949315747265819579552600847390166070158726428982147402129115198352484,
 3029770217829726866434565348051319937721579280443346532490989820540005,
 3029770217829726866434565348051319937722051541294793873860416686877796,
 3029770217829726866434565348057090064589716379852970203038466273539173,
 3029770217829726868664793993234106081760271737351102406060323274846821,
 3029770217829726868664793993234106082105386827954816873544130119691364,
 686277072178703433549330272832924889225634110965560348648397326367683173,
 686277072178703433549330272832924889225979226056164063115881133212527716,
 686277074640570032462920494425104934110775528888406278069246992773902949,
 686277074640570032462920494425104934111120643979009992536730799618747492,
 686277074640570032462920505932115567310009559115277888536813323944553572,
 686304763163373968062559005657586490259024205377926349397496900125815397,
 686304763163373968062559006124943917554348441559124105995276773218675812,
 693017584163216924198201929927583722054729914765659399391699560573530725,
 693152378980879111251209392787664009777890122026797832997086664692167781,
 748015978232305715207459347981441432447458787897439579124227042468786789,
 755024831300049812365465816931882513960290039457145485752010488129352293,
 755024831300049812365465816931882513960635154547749200219494294974196836,
 775621175764410077807248729102620162084223325636291290259023849054106725,
 775621175764410078378187262267931156930629564761882257148417145141817957,
 775621175764410078378187262267931157018674713506650009370458016532755045,
 173823457918406022052075680669042700171806452498626964025653207981405858916,
 175686930477748078988628549845228771641762332407183449295186689936907924069,
 175686930477748078988628549845228771641850377555928217047408730808298861157,
 175686931107985928310507646572826863132358535395432007226924204536900186725,
 175686931107985928310507646572826863132446580544176774979146245408291123813,
 175686931107985928310507649518621585231362447133511139465424839571350842468,
 175686931107985928310507649518621585231362448476973492138272621279738162276,
 175694019369823735824015105567985642893913201039135771134791482585526135908,
 177412501545783532594739694061461432846010858180008795697420093885209736293,
 177447009019105052480309604553262528448131069686265286258260355374624633445,
 177447009019105052480309604553729885875426393922446484014858135247717493860,
 191492090427470263093109593083249006706549449701744521708947129250395288677,
 193286356812812751965559249134561923573834250101029244393711659347895218789,
 193286356812812751965559249134561923573922295249774012145933700219286155877,
 198559020995688979918655674649891303438552369810295611317316274571281003109,
 198559020995688979918655674650358660865847694046476809073914054444373863524,
 198559020995688980064815939140590376174241168579041847283139795534691267685,
 198559020995688980064815939140590376196858631156846878624588118104150995557,
 44498805227111941645331374251274931243982451839648502790567221871881445010532,
 44498805227111941645331374251274931243982451840991965143240069653589832330340,
 44975854202303508221088908760378565540291157096238963009020937630226814432357,
 44975854202303508221088908760378565540313774558816768040362385952796274160229,
 44975854363644397647489957522643676961883785061230593839545741367824833672293,
 44975854363644397647489957522643676961906402523808398870887189690394293400165,
 44975854363644397647489958276767125819228786466178851703148598004610320659045,
 44975854363644397647489958276767125819228786811293942306863065488417165503588,
 44977668958674876370947866994775588225615410323647781234113927296039767864421,
 44977668958674876370947867025404324580841779466018757410506458616239195779685,
 45417600395720584344253361679734126808578779694082254398533992851141239600229,
 45417600395720584344253361679734126808578779694554515249981334220568105938020,
 45426434308890893434959258765754850784109156844146299907803683252057223556196,
 49021975149432387351836055829311745716876659123646600257484913904628741010533,
 49021975149432387351836055829311745716876659124118861108932255274055607348324,
 49481307344080064503183167778447852434901568025863486554243329799439561880677,
 49481307344080064503183167778447852434924185488441291585584778122009021608549,
 50831109374896378859175852710491817181657009675898063122921998566401254190180,
 50831109374896378896592880419991136300605739156234715604478236473408511636581,
 50831109374896378896592880419991136300605739156706976455925577842835377974372,
 50831109374896378896592880419991136306375866024371815014101907020884964635749,
 11391694138140657061204831808326382398459507670950016714385208638275994427683429,
 11391694138140657061204831808326382398459507671295131804988923105759801272527972,
 11513818675789698104598760642656912778314536216637174533009354482154592041792613,
 11513818675789698104598760642656912778314536216637646793860801823524018908130404,
 11513818675789698104598760642656912778320306343505311632418978152702068494791781,
 11513818717092965797757429125796781302242248975675032025623704238979684967216229,
 11513818717092965797757429125796781302242248975675504286475151580349111833554020,
 11513818717092965797757429125796781302248019102543169125033327909527161420215397,
 11513818717092965797757429318852384209722569335341786036006082286154628869747301,
 11513818717092965797757429318852384209722569423386934780773834508195500260684389,
 11514283253420768350962653958503507092695495543300801897089694602731620900631141,
 11629167183076068719349570244002613064376717782959081800221350220280794307458149,
 11629167183076068719349570244033241800731944152101452776397742751600993735373413,
 12667214680084496512814890951282650223334801414621052560586286877473055388562533,
 12667214680084496512814890951282650223334801414621524821437734218842482254900324,
 12667214680084496512814890951282650223340571541489189659995910548020531841561701,
 13012763999973472987949018293855276462148968107887533183291638940752866149758053,
 13012763999973472987949018293885905198504194477029904159468031472073065577673317,
 13012763999973472997527777387517730894437327251495117037541006478523033974830181,
 2916273699364008207668436942931553894005633963763204278882613452595628960267989605,
 2916273699364008207668436942931553894005633963851249427627381204817669831658926693,
 2947537581002162714777282724520169671250003529486615710293189325372906017694774373,
 2947537591575799244225901856203976013375497995800307228402462863120129806603220069,
 2947537591575799244225901905626210357688977749847497225217546518400591369041179749,
 2947537591575799244225901905626210357688977772464959803022577859848913938500907621,
 2947656512875716697846439413376897815730046859085005285654951271444301328947442789,
 2976487859533944215584988311043055734527018906062324711422776719479157970811843173,
 2977066798867473592153489982472509900987377702937971910757822185606828783036625509,
 3212704163393200937489927754829774567301228732358253681634984281640514863237526117,
 3242806958101631107280612083528358457175191420170488485352884018574432634467873893,
 3331267583993209084914948683234791730817073786119655464823816098047679174665400933,
 3331267583993209087367111011204539108596497721373948409015538669508065910986207845,
 3331267583993209087367111011204539109063855148669272645196736426105845784079068260,
 746566067037186101163119857390477796865442294723380295393949033317626020206991209573,
 746566067037186101163119857390477796865442294745997757971754064659074342776450937445,
 754569620736553654982984377477163435839621445493564820282461508306470109743291920997,
 754569620736553654982984377477163435840088802920860144518642706063067889616384781412,
 754569623443404606521830875188217859423748028869869848918435533969759399703854019173,
 754569623443404606521830875188217859424215386297165173154616731726357179576946879588,
 754569623443404606521830887840309851568378303960959289655694608705000207002089124965,
 754569623443404606521830887840309851568378303960959290127955460152341576428955462756,
 754569623443404606521830887840309851568378309731086157792794018328670754478542124133,
 754600067296183474648688489824485840826891995925761353127670225484189956738092463205,
 754600067296183474648688489824485840826891995925761353599931076931531326164958800996,
 762129100510073239591293435512962534652768691952120809154002468968493174835762000997,
 830158581274017563463836693383259765036469545508636250697743349766060923637205398117,
 830158581274017563463836693383259765036936902935931574933924547522658703510298258532,
 852804501502261525738226862908106683089170889246631798994896910553350875092728509541,
 852804501502261526365980418868362011920346918059333797170364525083097149365786602596,
 191120913161519641897758683491962315997553227449185355620850955229306709989517296759909,
 191120913161519641897758683491962315997553227449185355621323216080754051358944163097700,
 191120913161519641897758683491962315997553227454955482488988054638930380536993749759077,
 193169822908557735675644000634153839575062733547740196996772532752145380370436049169508,
 193169823601511579269588704048183772012599138892074284327581883321947438600339946302564,
 193169823601511579269588707287119322001504847296263605650887662623057994322989811856485,
 195067108362416568112577793952517700617962711027700512287803095087785667224519284192357,
 195105049730578749335371119491318408871108785139742927143424634755928701574482619364453,
 195105049730578749335371119491318408871108785139742927143896895607376042943909485702244,
 210547780052136816639339905340524106042653326203830513279630329881592352526528841610341,
 212520596806148496246742193506114499849455847151598483183084684165800628727277899312228,
 218317952384578950588986076904475310870827747647137740542693611801652272840266045551717,
 218317952384578950588986076904475310870827747647137740543165872653099614209692911889508,
 218317952384578950749690987230300675020980074667963082933242342244880177991786447336549,
 218317952384578950749690987230300675051608811023189452075613318421272709311985875251813,
 48926953769349028325826222973942352895373626228473709066436874381497095698646882966402149,
 49451474664590780332964864162343382931185431051866264062031397408372824682585773664466021,
 49451474664590780332964864162343382931216059788221490431173768384549217213905973092381285,
 49451474841986964293014708236335045635194750820015790418718591154242151589441171330528357,
 49451474841986964293014708236335045635225379556371016787860962130418544120761370758443621,
 49451474841986964293014709065502546432385240528385428037825689036543857552854605264941669,
 49451474841986964293014709065502546432385240995742855333149925217741614150634478357802084,
 49453470010322680194576448869137504064431193844990696069525083057784836991553320039838309,
 54405272782374015039166001537565311961430068134453985325727308170268568261937287301002341,
 54405272782374015039166001537565311961460696870809211694869679146444960793257486728917605,
 55889395810452211391920892730956972813211855621936499731357009515845854780842770845495909,
 12525300164953351251411513081329242341215648314109811465999038289068297509859771252828631653,
 12525300164953351251411513081329242341215648314577168893294362525249495266457551125921492068,
 12659577514135239765239005225559906030391311305784701550380484706444599647956903498430640741,
 12659577559548662859011765308501771682617697166430980297692406305387147336111885300942598757,
 12659577559548662859011765520768651886690621694910170965286380855741853222563055101142461540,
 12786404539143208916442881686983043243776985342918192473302426950524996350372058635040027237,
 13927749832287747850026496393616719862133938398927158193886637861489910004270890989383938661,
 14307685327475766105799791536011693973230567269802818964236918630193536316846441253648560741,
 14307685327475766116331748539124985040182235039215743931227394436056528277040755714832823397,
 3206476842228057920361347348820286039351205968531755236683356806463870788213133716877447097444,
 3240851843618621379901185337743335943780175694280883596897404084849817499330112301976629900389,
 3240851855244457691907011918976453550750130474606330956209256014179109707497787643419691152485,
 3240851855244457691907011973316774882992799123268267411886944356698938248583449860037547226213,
 3240851855244457691907011973316774882992799153897003767113313499069914424975981180236975141477,
 3240982610596507169231762153087795466366562719825310257612395843274987077078008831525173425253,
 3565503957065663449606783076765880284706288230125352497634979292541416950546493099660674167909,
 3662767443833796125780927626015996170286652170039230446394212975630473938916882279524749898853,
 3662767443833796125780927626015996170286652170039230446394212976102734790364223648951616236644,
 820858071610382827612504921297993226073908727913500604235712973312379945606169539274771534017637,
 820858071610382827612504921297993226073908727944129340590939342454750921782562070594970961932901,
 829658071966367073254703446462294001607724977735906200805735445721553282528503198122544801608805,
 829658071966367073254703446462294001607724977735906200805735445722025543379950539491971667946596,
 829658074942581169128195051257972108992033401499220724789569539629852087819428085531968482145381,
 829658074942581169128195051257972108992033401499220724789569539630324348670875426901395348483172,
 829658074942581169128195065169094370046156583397632964381008255761898092793892379115052417249893,
 837969807877289339548000694238120722024168511433486661930347852629606160817982805155377555010661,
 912769013008809843099336467652065352884809786912090239394554698890602742039896682329660134093925,
 912769013008809843099336467652065352884809786912090239394554698891075002891344023699087000431716,
 937668465621451807509695138104062376229638456593797543640230699348363596060847944448506406728805,
 210139666332258003868801259852286265874920634353697111191280471668416235976335931269286953035854437,
 212392467185300779296817936683288158731816085349794038881538113475045911755225902198459797201843301,
 240043127199091662899178872898584325015906036615691006534891141601868827221309761057699701742465637,
 53795754581058048990413122522185284063979682394546460464967800747114556409941987858082466355564606565,
 54372471404387832512820245067352899689363864140900348776004678170838666010948438556145861810605879909,
 54372471599436999499985390879242460134901901000652929419809229349212936514494491977409852138250924645,
 54372471599436999499985391790921768635344917849547273953673757049611753409340530957254524611218994277,
 54372471599436999499985391790921768635344917849547273953673757049611753881601382404595894038085332068,
 59819230036545361877358114744045754966658894195070745928961536746525491389487121937143372240350704229,
 13771713172750860541545759365679432720378798693003893879031756991261326440945151591663560203552086389861,
 13771713172750860541545759365679432720378798693003893879031756991261326441417412443110901572978952727652,
 15731466384119671219760586614281622324242418015645925804270625856020075460775756500676978102788557993061,
 3563354285957960991560187580734039634042150200338045257384242588604082815693516869215574770069261275722853,
 3563354298740703199231042576662033867400930983978790382456617654630019007413911026231531640181806927541349,
 3563354298740703199231042636409849029285964536187930145827963342003355902384628197267596511686540380172901,
 3920313059675036835994541407865782597494957289968156405200423272220294603701428023272627613593018082358373,
 902542994489400396450742885789167302762744951144703189256225226179302289664731541871716045486755226017165925,
 233527987322270724864805610219755865983284971843612190036981405581531932418678993536129204989459559749341246565,
 59149057686857344381795885763078868353859253118219268211095976422886754855467846328104782757019560941655316067429]

/-! Basic lemmas about the dict model and the Except monad. -/

theorem dictGet_error_of_not_mem {α : Type} (tbl : List (String × α)) (k : String)
    (h : k ∉ tbl.map Prod.fst) : dictGet tbl k = .error k := by
  induction tbl with
  | nil => rfl
  | cons hd tl ih =>
    simp only [List.map_cons, List.mem_cons, not_or] at h
    obtain ⟨h1, h2⟩ := h
    cases hd with
    | mk key v => simpa only [dictGet, if_neg h1] using ih h2

theorem dictGet_ok_of_mem {α : Type} (tbl : List (String × α)) (k : String)
    (h : k ∈ tbl.map Prod.fst) : ∃ v, dictGet tbl k = .ok v ∧ (k, v) ∈ tbl := by
  induction tbl with
  | nil => simp at h
  | cons hd tl ih =>
    cases hd with
    | mk key v =>
      by_cases hk : k = key
      · exact ⟨v, by simp [dictGet, hk], by simp [hk]⟩
      · simp only [List.map_cons, List.mem_cons, hk, false_or] at h
        obtain ⟨w, hw, hmem⟩ := ih h
        exact ⟨w, by simp [dictGet, hk, hw], by simp [hmem]⟩

theorem ok_bind {α β : Type} (a : α) (f : α → Except String β) :
    (Except.ok a >>= f) = f a := rfl

theorem error_bind {α β : Type} (e : String) (f : α → Except String β) :
    ((Except.error e : Except String α) >>= f) = Except.error e := rfl

theorem pure_eq_ok {α : Type} (a : α) : (pure a : Except String α) = .ok a := rfl

/-! Sorting-based duplicate-freeness certificates. -/

theorem merge2_perm : ∀ (fuel : Nat) (as bs : List Nat),
    (merge2 fuel as bs).Perm (as ++ bs) := by
  intro fuel
  induction fuel with
  | zero => intro as bs; exact List.Perm.refl _
  | succ fuel ih =>
    intro as bs
    cases as with
    | nil => exact List.Perm.refl _
    | cons a as =>
      cases bs with
      | nil =>
        show (a :: as).Perm ((a :: as) ++ [])
        rw [List.append_nil]
      | cons b bs =>
        show (if a ≤ b then a :: merge2 fuel as (b :: bs)
              else b :: merge2 fuel (a :: as) bs).Perm ((a :: as) ++ (b :: bs))
        split
        · exact List.Perm.cons a (ih as (b :: bs))
        · exact List.Perm.trans (List.Perm.cons b (ih (a :: as) bs))
            List.perm_middle.symm

theorem msort_perm : ∀ (fuel : Nat) (l : List Nat), (msort fuel l).Perm l := by
  intro fuel
  induction fuel with
  | zero => intro l; exact List.Perm.refl _
  | succ fuel ih =>
    intro l
    show (if l.length ≤ 1 then l
          else merge2 (l.length + 1) (msort fuel (l.take (l.length / 2)))
            (msort fuel (l.drop (l.length / 2)))).Perm l
    split
    · exact List.Perm.refl _
    · refine List.Perm.trans (merge2_perm _ _ _) ?_
      refine List.Perm.trans (List.Perm.append (ih _) (ih _)) ?_
      rw [List.take_append_drop]

theorem pairwise_of_sortedStrict :
    ∀ (l : List Nat), sortedStrict l = true → l.Pairwise (· < ·) := by
  intro l
  induction l with
  | nil => intro _; exact List.Pairwise.nil
  | cons a l ih =>
    intro h
    cases l with
    | nil => exact List.pairwise_singleton _ _
    | cons b rest =>
      have h' : (Nat.blt a b && sortedStrict (b :: rest)) = true := h
      obtain ⟨h1, h2⟩ := Bool.and_eq_true _ _ |>.mp h'
      have hab : a < b := Nat.blt_eq ▸ h1
      have hpb : List.Pairwise (· < ·) (b :: rest) := ih h2
      refine List.Pairwise.cons ?_ hpb
      intro x hx
      rcases List.mem_cons.mp hx with rfl | hx'
      · exact hab
      · exact Nat.lt_trans hab ((List.pairwise_cons.mp hpb).1 x hx')

theorem nodup_of_msort_sorted (l s : List Nat) (fuel : Nat)
    (hms : msort fuel l = s) (hsorted : sortedStrict s = true) : l.Nodup := by
  have hperm : (msort fuel l).Perm l := msort_perm fuel l
  rw [hms] at hperm
  have hnd : s.Nodup :=
    List.Pairwise.imp (fun h => Nat.ne_of_lt h) (pairwise_of_sortedStrict s hsorted)
  exact hperm.nodup_iff.mp hnd

/-- namePackList has no duplicates, certified through its sorted version. -/
theorem namePack_nodup : namePackList.Nodup :=
  nodup_of_msort_sorted _ sortedNamePack 265 (by rfl) (by rfl)

/-- comboPackList has no duplicates, certified through its sorted version. -/
theorem comboPack_nodup : comboPackList.Nodup :=
  nodup_of_msort_sorted _ sortedComboPack 265 (by rfl) (by rfl)

/-! Key-set facts about the configuration tables. -/

theorem timing_keys_eq : TIMING.map Prod.fst = SEVERITIES := by decide

theorem labels_keys_eq : SEVERITY_LABELS.map Prod.fst = faultKeys := by decide

theorem slugs_keys_eq : SEVERITY_SLUGS.map Prod.fst = faultKeys := by decide

theorem severity_keys_labels : ∀ p ∈ SEVERITY_LABELS, p.2.map Prod.fst = SEVERITIES := by decide

theorem severity_keys_slugs : ∀ p ∈ SEVERITY_SLUGS, p.2.map Prod.fst = SEVERITIES := by decide

theorem sevParamsOf_ok (fd : FaultDef) (sv : String) (hs : sv ∈ SEVERITIES) :
    ∃ ps, sevParamsOf fd sv = .ok ps := by
  simp only [SEVERITIES, List.mem_cons, List.not_mem_nil, or_false] at hs
  rcases hs with h | h | h <;> subst h
  · exact ⟨fd.mild, rfl⟩
  · exact ⟨fd.moderate, rfl⟩
  · exact ⟨fd.severe, rfl⟩

/-! Membership in the full combination domain. -/

theorem mem_full_iff (c : String × String × String) :
    c ∈ full_combinations ↔ c.1 ∈ faultKeys ∧ c.2.1 ∈ tierKeys ∧ c.2.2 ∈ SEVERITIES := by
  rcases c with ⟨f, t, s⟩
  constructor
  · intro h
    simp only [full_combinations, List.mem_flatMap, List.mem_map] at h
    obtain ⟨a, ha, b, hb, s', hs', heq⟩ := h
    cases heq
    exact ⟨ha, hb, hs'⟩
  · rintro ⟨hf, ht, hs⟩
    simp only [full_combinations, List.mem_flatMap, List.mem_map]
    exact ⟨f, hf, t, ht, s, hs, rfl⟩

/-! The success path of build_scenario: on declared dimension values every
dict lookup succeeds, the record is fully assembled, and the preview listing
computes exactly the metadata name of that record. -/

theorem build_ok_name (ft tt sv : String)
    (hf : ft ∈ faultKeys) (ht : tt ∈ tierKeys) (hs : sv ∈ SEVERITIES) :
    ∃ r, build_scenario ft tt sv = .ok r ∧
      preview_name ft tt sv = .ok r.metadata.name := by
  obtain ⟨fd, hfd, hfdm⟩ :=
    dictGet_ok_of_mem FAULT_DEFINITIONS ft (by simpa [faultKeys] using hf)
  obtain ⟨tier, htier, -⟩ :=
    dictGet_ok_of_mem TARGET_TIERS tt (by simpa [tierKeys] using ht)
  obtain ⟨timing, htm, -⟩ :=
    dictGet_ok_of_mem TIMING sv (by rw [timing_keys_eq]; exact hs)
  obtain ⟨ps, hps⟩ := sevParamsOf_ok fd sv hs
  obtain ⟨labels, hlab, hlabm⟩ :=
    dictGet_ok_of_mem SEVERITY_LABELS ft (by rw [labels_keys_eq]; exact hf)
  obtain ⟨sevlab, hsl, -⟩ :=
    dictGet_ok_of_mem labels sv (by rw [severity_keys_labels _ hlabm]; exact hs)
  obtain ⟨slugs, hslugs, hslugsm⟩ :=
    dictGet_ok_of_mem SEVERITY_SLUGS ft (by rw [slugs_keys_eq]; exact hf)
  obtain ⟨slug, hslug, -⟩ :=
    dictGet_ok_of_mem slugs sv (by rw [severity_keys_slugs _ hslugsm]; exact hs)
  have hdesc : scenario_description ft tt sv =
      .ok (sevlab ++ " on " ++ tier.label ++ ". " ++ fd.label ++ ".") := by
    simp only [scenario_description, hfd, hlab, hsl, htier, ok_bind, pure_eq_ok]
  refine ⟨⟨"chaos.polygon.io/v1", "ChaosScenario",
    ⟨"gen-" ++ dashed ft ++ "-" ++ slug ++ "-" ++ dashed tt,
     sevlab ++ " on " ++ tier.label ++ ". " ++ fd.label ++ ".",
     ["generated", dashed ft, slug, tt], "scripts/generate_scenarios.py", "0.0.1"⟩,
    ⟨tier.selectors.map fun s =>
       ⟨⟨"kurtosis_service", "$\x7bENCLAVE_NAME\x7d", s.pattern⟩, s.aliasName⟩,
     timing.duration, timing.warmup, timing.cooldown,
     tier.selectors.map fun s =>
       ⟨dashed ft ++ "-" ++ s.aliasName, sevlab ++ " applied to " ++ s.aliasName,
        s.aliasName, fd.type, ps⟩,
     INVARIANT_CRITERIA.map fun c => ⟨c, timing.duration⟩,
     ["chain_head_block", "cometbft_consensus_height",
      "cometbft_consensus_validators", "up"]⟩⟩, ?_, ?_⟩
  · simp only [build_scenario, hfd, htier, htm, hps, hlab, hsl, hslugs, hslug,
      hdesc, ok_bind, pure_eq_ok]
  · simp only [preview_name, hslugs, hslug, ok_bind, pure_eq_ok]

/-! The failure paths of build_scenario: each undeclared value is reported
as the error key of the first failing lookup, in source lookup order. -/

theorem build_error_fault (ft tt sv : String) (h : ft ∉ faultKeys) :
    build_scenario ft tt sv = .error ft := by
  have hfd := dictGet_error_of_not_mem FAULT_DEFINITIONS ft (by simpa [faultKeys] using h)
  simp only [build_scenario, hfd, error_bind]

theorem build_error_tier (ft tt sv : String) (hf : ft ∈ faultKeys) (h : tt ∉ tierKeys) :
    build_scenario ft tt sv = .error tt := by
  obtain ⟨fd, hfd, -⟩ :=
    dictGet_ok_of_mem FAULT_DEFINITIONS ft (by simpa [faultKeys] using hf)
  have htier := dictGet_error_of_not_mem TARGET_TIERS tt (by simpa [tierKeys] using h)
  simp only [build_scenario, hfd, htier, ok_bind, error_bind]

theorem build_error_severity (ft tt sv : String)
    (hf : ft ∈ faultKeys) (ht : tt ∈ tierKeys) (h : sv ∉ SEVERITIES) :
    build_scenario ft tt sv = .error sv := by
  obtain ⟨fd, hfd, -⟩ :=
    dictGet_ok_of_mem FAULT_DEFINITIONS ft (by simpa [faultKeys] using hf)
  obtain ⟨tier, htier, -⟩ :=
    dictGet_ok_of_mem TARGET_TIERS tt (by simpa [tierKeys] using ht)
  have htm := dictGet_error_of_not_mem TIMING sv (by rw [timing_keys_eq]; exact h)
  simp only [build_scenario, hfd, htier, htm, ok_bind, error_bind]


/-! The requirement set and pairwise projections. -/

theorem mem_required_iff (p : Pair) :
    p ∈ required ↔
      (∃ f ∈ faultKeys, ∃ t ∈ tierKeys, ((0 : Nat), f, (1 : Nat), t) = p) ∨
      (∃ f ∈ faultKeys, ∃ s ∈ SEVERITIES, ((0 : Nat), f, (2 : Nat), s) = p) ∨
      (∃ t ∈ tierKeys, ∃ s ∈ SEVERITIES, ((1 : Nat), t, (2 : Nat), s) = p) := by
  simp [required, List.mem_append, List.mem_flatMap, List.mem_map]

theorem pairsOf_mem_required (c : String × String × String)
    (hc : c ∈ full_combinations) : ∀ p ∈ pairsOf c, p ∈ required := by
  obtain ⟨hf, ht, hs⟩ := (mem_full_iff c).mp hc
  intro p hp
  simp only [pairsOf, List.mem_cons, List.not_mem_nil, or_false] at hp
  rcases hp with rfl | rfl | rfl
  · exact (mem_required_iff _).mpr (Or.inl ⟨c.1, hf, c.2.1, ht, rfl⟩)
  · exact (mem_required_iff _).mpr (Or.inr (Or.inl ⟨c.1, hf, c.2.2, hs, rfl⟩))
  · exact (mem_required_iff _).mpr (Or.inr (Or.inr ⟨c.2.1, ht, c.2.2, hs, rfl⟩))

theorem pairsOf_elim01 (c : String × String × String) (f t : String)
    (h : ((0 : Nat), f, (1 : Nat), t) ∈ pairsOf c) : c.1 = f ∧ c.2.1 = t := by
  simp [pairsOf, Prod.mk.injEq] at h
  exact ⟨h.1.symm, h.2.symm⟩

theorem pairsOf_elim02 (c : String × String × String) (f s : String)
    (h : ((0 : Nat), f, (2 : Nat), s) ∈ pairsOf c) : c.1 = f ∧ c.2.2 = s := by
  simp [pairsOf, Prod.mk.injEq] at h
  exact ⟨h.1.symm, h.2.symm⟩

theorem pairsOf_elim12 (c : String × String × String) (t s : String)
    (h : ((1 : Nat), t, (2 : Nat), s) ∈ pairsOf c) : c.2.1 = t ∧ c.2.2 = s := by
  simp [pairsOf, Prod.mk.injEq] at h
  exact ⟨h.1.symm, h.2.symm⟩

/-! The new-coverage count. -/

theorem newCount_pos {cov : List Pair} {c : String × String × String} {q : Pair}
    (hq : q ∈ pairsOf c) (hnc : q ∉ cov) : 0 < newCount cov c := by
  rw [newCount, List.countP_eq_length_filter]
  exact List.length_pos_of_mem
    (List.mem_filter.mpr ⟨hq, by simpa using hnc⟩)

theorem newCount_eq_zero {cov : List Pair} {c : String × String × String}
    (h : ∀ p ∈ pairsOf c, p ∈ cov) : newCount cov c = 0 := by
  rw [newCount, List.countP_eq_length_filter]
  have hnil : (pairsOf c).filter (fun p => decide (p ∉ cov)) = [] := by
    rw [List.filter_eq_nil_iff]
    intro a ha
    simp only [decide_eq_true_eq]
    exact not_not_intro (h a ha)
  rw [hnil]
  rfl

theorem exists_uncovered_of_newCount_ne_zero {cov : List Pair}
    {c : String × String × String} (h : newCount cov c ≠ 0) :
    ∃ q ∈ pairsOf c, q ∉ cov := by
  by_contra hno
  push_neg at hno
  exact h (newCount_eq_zero (by simpa using hno))

/-! The proper-subset loop condition. -/

theorem properSubset_false_elim {cov : List Pair}
    (hsub : ∀ p ∈ cov, p ∈ required) (h : properSubset cov required = false) :
    ∀ p ∈ required, p ∈ cov := by
  unfold properSubset at h
  have ha : cov.all (fun p => decide (p ∈ required)) = true :=
    List.all_eq_true.mpr (fun x hx => decide_eq_true (hsub x hx))
  rw [ha, Bool.true_and] at h
  rcases Bool.eq_false_or_eq_true (required.all fun p => decide (p ∈ cov)) with hb | hb
  · intro p hp; simpa using List.all_eq_true.mp hb p hp
  · rw [hb] at h; simp at h

theorem properSubset_true_elim {cov : List Pair}
    (h : properSubset cov required = true) : ∃ p ∈ required, p ∉ cov := by
  unfold properSubset at h
  have h2 := (Bool.and_eq_true _ _).mp h |>.2
  rcases Bool.eq_false_or_eq_true (required.all fun p => decide (p ∈ cov)) with hb | hb
  · rw [hb] at h2; simp at h2
  · obtain ⟨p, hp, hfalse⟩ := List.all_eq_false.mp hb
    exact ⟨p, hp, by simpa using hfalse⟩

/-! The best-candidate scan: it returns the first combination, in full
enumeration order, whose new-coverage count is maximal. -/

theorem bestStep_snd_ge_fst (cov : List Pair) (b : Option (String × String × String) × Int)
    (c : String × String × String) : b.2 ≤ (bestStep cov b c).2 := by
  unfold bestStep; split
  · next h => exact le_of_lt h
  · exact le_refl _

theorem bestStep_snd_ge_count (cov : List Pair) (b : Option (String × String × String) × Int)
    (c : String × String × String) : (newCount cov c : Int) ≤ (bestStep cov b c).2 := by
  unfold bestStep; split
  · exact le_refl _
  · next h => exact not_lt.mp h

theorem foldl_bestStep_snd_mono (cov : List Pair) (l : List (String × String × String)) :
    ∀ b, b.2 ≤ (l.foldl (bestStep cov) b).2 := by
  induction l with
  | nil => intro b; exact le_refl _
  | cons c l ih =>
    intro b
    exact le_trans (bestStep_snd_ge_fst cov b c) (ih (bestStep cov b c))

theorem foldl_bestStep_ge (cov : List Pair) (l : List (String × String × String)) :
    ∀ b, ∀ c ∈ l, (newCount cov c : Int) ≤ (l.foldl (bestStep cov) b).2 := by
  induction l with
  | nil => intro b c hc; simp at hc
  | cons c0 l ih =>
    intro b c hc
    rcases List.mem_cons.mp hc with rfl | hc'
    · exact le_trans (bestStep_snd_ge_count cov b c)
        (foldl_bestStep_snd_mono cov l (bestStep cov b c))
    · exact ih (bestStep cov b c0) c hc'

theorem foldl_bestStep_shape (cov : List Pair) (l : List (String × String × String)) :
    ∀ b, l.foldl (bestStep cov) b = b ∨
      ∃ c ∈ l, l.foldl (bestStep cov) b = (some c, (newCount cov c : Int)) := by
  induction l with
  | nil => intro b; exact Or.inl rfl
  | cons c0 l ih =>
    intro b
    simp only [List.foldl_cons]
    rcases ih (bestStep cov b c0) with h | ⟨c, hc, h⟩
    · rw [h]
      unfold bestStep; split
      · exact Or.inr ⟨c0, List.mem_cons_self _ _, rfl⟩
      · exact Or.inl rfl
    · exact Or.inr ⟨c, List.mem_cons_of_mem _ hc, h⟩

theorem foldl_bestStep_first (cov : List Pair) (l : List (String × String × String)) :
    ∀ (b : Option (String × String × String) × Int) (c : String × String × String) (n : Int),
      l.foldl (bestStep cov) b = (some c, n) →
      (b = (some c, n) ∧ ∀ x ∈ l, (newCount cov x : Int) ≤ n) ∨
      ((newCount cov c : Int) = n ∧ b.2 < n ∧
        ∃ l₁ l₂, l = l₁ ++ c :: l₂ ∧
          (∀ x ∈ l₁, (newCount cov x : Int) < n) ∧
          (∀ x ∈ l₂, (newCount cov x : Int) ≤ n)) := by
  induction l with
  | nil => intro b c n h; exact Or.inl ⟨h, by simp⟩
  | cons c0 l ih =>
    intro b c n h
    simp only [List.foldl_cons] at h
    rcases ih (bestStep cov b c0) c n h with ⟨hb, hall⟩ | ⟨hn, hlt, l₁, l₂, hsplit, h1, h2⟩
    · by_cases hgt : (newCount cov c0 : Int) > b.2
      · rw [bestStep, if_pos hgt] at hb
        have hc : c0 = c := by
          have := congrArg Prod.fst hb
          simpa using this
        have hn2 : (newCount cov c0 : Int) = n := by
          have := congrArg Prod.snd hb
          simpa using this
        subst hc
        refine Or.inr ⟨hn2, by omega, [], l, by simp, by simp, fun x hx => hall x hx⟩
      · rw [bestStep, if_neg hgt] at hb
        refine Or.inl ⟨hb, ?_⟩
        intro x hx
        rcases List.mem_cons.mp hx with rfl | hx'
        · have : b.2 = n := by rw [hb]
          omega
        · exact hall x hx'
    · refine Or.inr ⟨hn, ?_, c0 :: l₁, l₂, by rw [hsplit]; rfl, ?_, h2⟩
      · exact lt_of_le_of_lt (bestStep_snd_ge_fst cov b c0) hlt
      · intro x hx
        rcases List.mem_cons.mp hx with rfl | hx'
        · exact lt_of_le_of_lt (bestStep_snd_ge_count cov b x) hlt
        · exact h1 x hx'

theorem pickBest_spec (cov : List Pair) (c : String × String × String) (n : Int)
    (h : pickBest cov = (some c, n)) :
    c ∈ full_combinations ∧ (newCount cov c : Int) = n ∧
    (∀ x ∈ full_combinations, (newCount cov x : Int) ≤ n) ∧
    ∃ l₁ l₂, full_combinations = l₁ ++ c :: l₂ ∧
      ∀ x ∈ l₁, (newCount cov x : Int) < n := by
  rcases foldl_bestStep_first cov full_combinations (none, -1) c n h with
    ⟨hb, -⟩ | ⟨hn, -, l₁, l₂, hsplit, h1, h2⟩
  · exact absurd hb (by simp)
  · refine ⟨by rw [hsplit]; exact List.mem_append_right _ (List.mem_cons_self _ _),
      hn, ?_, l₁, l₂, hsplit, h1⟩
    intro x hx
    rw [hsplit] at hx
    rcases List.mem_append.mp hx with hx' | hx'
    · exact le_of_lt (h1 x hx')
    · rcases List.mem_cons.mp hx' with rfl | hx''
      · exact le_of_eq hn
      · exact h2 x hx''

theorem pickBest_some_of_exists (cov : List Pair) (c0 : String × String × String)
    (hc0 : c0 ∈ full_combinations) :
    ∃ c n, pickBest cov = (some c, n) ∧ (newCount cov c0 : Int) ≤ n := by
  have hge := foldl_bestStep_ge cov full_combinations (none, -1) c0 hc0
  rcases foldl_bestStep_shape cov full_combinations (none, -1) with h | ⟨c, -, h⟩
  · exfalso
    rw [h] at hge
    have h0 : (0 : Int) ≤ (newCount cov c0 : Int) := Int.ofNat_nonneg _
    have h1 : (newCount cov c0 : Int) ≤ -1 := hge
    omega
  · refine ⟨c, (newCount cov c : Int), h, ?_⟩
    rw [h] at hge
    exact hge

/-! Set insertion of the pairwise projections of the chosen combination. -/

theorem insertFold_append (l : List Pair) (acc : List Pair) :
    ∃ ex, l.foldl insertNew acc = acc ++ ex := by
  induction l generalizing acc with
  | nil => exact ⟨[], by simp⟩
  | cons p l ih =>
    simp only [List.foldl_cons]
    by_cases hp : p ∈ acc
    · have hins : insertNew acc p = acc := by rw [insertNew, if_pos hp]
      obtain ⟨ex, hex⟩ := ih acc
      exact ⟨ex, by rw [hins]; exact hex⟩
    · have hins : insertNew acc p = acc ++ [p] := by rw [insertNew, if_neg hp]
      obtain ⟨ex, hex⟩ := ih (acc ++ [p])
      exact ⟨[p] ++ ex, by rw [hins, hex, List.append_assoc]⟩

theorem mem_insertFold (l : List Pair) (acc : List Pair) (q : Pair) :
    q ∈ l.foldl insertNew acc ↔ q ∈ acc ∨ q ∈ l := by
  induction l generalizing acc with
  | nil => simp
  | cons p l ih =>
    simp only [List.foldl_cons, ih (insertNew acc p), List.mem_cons]
    unfold insertNew
    split
    · next hp =>
      constructor
      · rintro (h | h)
        · exact Or.inl h
        · exact Or.inr (Or.inr h)
      · rintro (h | rfl | h)
        · exact Or.inl h
        · exact Or.inl hp
        · exact Or.inr h
    · next hp =>
      simp only [List.mem_append, List.mem_singleton]
      constructor
      · rintro ((h | rfl) | h)
        · exact Or.inl h
        · exact Or.inr (Or.inl rfl)
        · exact Or.inr (Or.inr h)
      · rintro (h | rfl | h)
        · exact Or.inl (Or.inl h)
        · exact Or.inl (Or.inr rfl)
        · exact Or.inr h

theorem nodup_insertFold (l : List Pair) (acc : List Pair) (h : acc.Nodup) :
    (l.foldl insertNew acc).Nodup := by
  induction l generalizing acc with
  | nil => exact h
  | cons p l ih =>
    simp only [List.foldl_cons]
    apply ih
    unfold insertNew
    split
    · exact h
    · next hp =>
      rw [List.nodup_append]
      refine ⟨h, List.nodup_singleton _, ?_⟩
      intro a ha hb
      rw [List.mem_singleton] at hb
      exact hp (hb ▸ ha)

theorem subset_insertFold (l : List Pair) (acc : List Pair) :
    acc ⊆ l.foldl insertNew acc :=
  fun q hq => (mem_insertFold l acc q).mpr (Or.inl hq)

theorem length_insertFold_lt (l : List Pair) (acc : List Pair) (q : Pair)
    (hq : q ∈ l) (hnq : q ∉ acc) :
    acc.length < (l.foldl insertNew acc).length := by
  rcases insertFold_append l acc with ⟨ex, hex⟩
  have hqmem : q ∈ acc ++ ex := hex ▸ (mem_insertFold l acc q).mpr (Or.inr hq)
  have hqex : q ∈ ex := by
    rcases List.mem_append.mp hqmem with h | h
    · exact absurd h hnq
    · exact h
  rw [hex, List.length_append]
  have := List.length_pos_of_mem hqex
  omega

/-! Reduction lemmas for the greedy while loop. -/

theorem greedyLoop_zero (cov : List Pair) (sel : List (String × String × String)) :
    greedyLoop 0 cov sel = sel := rfl

theorem greedyLoop_exit_notproper (fuel : Nat) (cov : List Pair)
    (sel : List (String × String × String))
    (hps : properSubset cov required = false) :
    greedyLoop (fuel + 1) cov sel = sel := by
  rw [greedyLoop, greedyBody, hps]
  rfl

theorem greedyLoop_exit_none (fuel : Nat) (cov : List Pair)
    (sel : List (String × String × String)) (m : Int)
    (hps : properSubset cov required = true) (hpb : pickBest cov = (none, m)) :
    greedyLoop (fuel + 1) cov sel = sel := by
  rw [greedyLoop, greedyBody, hps, hpb]
  rfl

theorem greedyLoop_exit_zero (fuel : Nat) (cov : List Pair)
    (sel : List (String × String × String)) (c : String × String × String)
    (hps : properSubset cov required = true) (hpb : pickBest cov = (some c, 0)) :
    greedyLoop (fuel + 1) cov sel = sel := by
  rw [greedyLoop, greedyBody, hps, hpb]
  rfl

theorem greedyLoop_succ_continue (fuel : Nat) (cov : List Pair)
    (sel : List (String × String × String)) (c : String × String × String) (n : Int)
    (hps : properSubset cov required = true) (hpb : pickBest cov = (some c, n))
    (hn : n ≠ 0) :
    greedyLoop (fuel + 1) cov sel =
      greedyLoop fuel (greedyStepAdd cov c) (sel ++ [c]) := by
  rw [greedyLoop, greedyBody, hps, hpb]
  show (if n = 0 then sel else greedyLoop fuel (greedyStepAdd cov c) (sel ++ [c])) =
    greedyLoop fuel (greedyStepAdd cov c) (sel ++ [c])
  rw [if_neg hn]

/-! The selected list stays within the requirement budget. -/

theorem length_lt_of_not_mem (cov : List Pair) (hnd : cov.Nodup)
    (hsub : ∀ p ∈ cov, p ∈ required) (q : Pair) (hq : q ∈ required) (hqn : q ∉ cov) :
    cov.length < required.length := by
  have hsp : cov.Subperm required := hnd.subperm (fun a ha => hsub a ha)
  rcases lt_or_ge cov.length required.length with h | h
  · exact h
  · exfalso
    have hperm := hsp.perm_of_length_le h
    exact hqn (hperm.mem_iff.mpr hq)


/-! The two main induction theorems about the greedy loop: it reaches full
pairwise coverage within the fuel bound, and its selection is a duplicate
free sublist of the full domain. -/

theorem loop_covers :
    ∀ (fuel : Nat) (cov : List Pair) (sel : List (String × String × String)),
      (∀ p ∈ cov, p ∈ required) →
      (∀ p ∈ cov, ∃ c ∈ sel, p ∈ pairsOf c) →
      cov.Nodup →
      required.length - cov.length < fuel →
      ∀ p ∈ required, ∃ c ∈ greedyLoop fuel cov sel, p ∈ pairsOf c := by
  intro fuel
  induction fuel with
  | zero =>
    intro cov sel _ _ _ hbound
    exact absurd hbound (Nat.not_lt_zero _)
  | succ fuel ih =>
    intro cov sel hsub hwit hnd hbound p hp
    cases hps : properSubset cov required with
    | false =>
      rw [greedyLoop_exit_notproper fuel cov sel hps]
      exact hwit p (properSubset_false_elim hsub hps p hp)
    | true =>
      obtain ⟨q, hqreq, hqnc⟩ := properSubset_true_elim hps
      obtain ⟨c0, hc0mem, hc0q⟩ : ∃ c0, c0 ∈ full_combinations ∧ q ∈ pairsOf c0 := by
        rcases (mem_required_iff q).mp hqreq with ⟨f, hf, t, ht, rfl⟩ |
          ⟨f, hf, s, hs, rfl⟩ | ⟨t, ht, s, hs, rfl⟩
        · exact ⟨(f, t, "mild"),
            (mem_full_iff _).mpr ⟨hf, ht, (by decide : "mild" ∈ SEVERITIES)⟩,
            by simp [pairsOf]⟩
        · exact ⟨(f, "validator1_heimdall", s),
            (mem_full_iff _).mpr
              ⟨hf, (by decide : "validator1_heimdall" ∈ tierKeys), hs⟩,
            by simp [pairsOf]⟩
        · exact ⟨("packet_loss", t, s),
            (mem_full_iff _).mpr
              ⟨(by decide : "packet_loss" ∈ faultKeys), ht, hs⟩,
            by simp [pairsOf]⟩
      have hpos : 0 < newCount cov c0 := newCount_pos hc0q hqnc
      obtain ⟨c, n, hpb, hge⟩ := pickBest_some_of_exists cov c0 hc0mem
      have hn0 : n ≠ 0 := by omega
      rw [greedyLoop_succ_continue fuel cov sel c n hps hpb hn0]
      obtain ⟨hcmem, hcn, -, -⟩ := pickBest_spec cov c n hpb
      have hnc0 : newCount cov c ≠ 0 := by omega
      obtain ⟨q', hq'p, hq'nc⟩ := exists_uncovered_of_newCount_ne_zero hnc0
      refine ih (greedyStepAdd cov c) (sel ++ [c]) ?_ ?_ ?_ ?_ p hp
      · intro p' hp'
        rcases (mem_insertFold _ _ _).mp hp' with h | h
        · exact hsub p' h
        · exact pairsOf_mem_required c hcmem p' h
      · intro p' hp'
        rcases (mem_insertFold _ _ _).mp hp' with h | h
        · obtain ⟨c', hc', hpc'⟩ := hwit p' h
          exact ⟨c', List.mem_append_left _ hc', hpc'⟩
        · exact ⟨c, List.mem_append_right _ (List.mem_singleton_self _), h⟩
      · exact nodup_insertFold _ _ hnd
      · have hlt := length_insertFold_lt (pairsOf c) cov q' hq'p hq'nc
        have hcovlt : cov.length < required.length :=
          length_lt_of_not_mem cov hnd hsub q hqreq hqnc
        unfold greedyStepAdd
        omega

theorem loop_sel :
    ∀ (fuel : Nat) (cov : List Pair) (sel : List (String × String × String)),
      (∀ c ∈ sel, c ∈ full_combinations) →
      sel.Nodup →
      (∀ c ∈ sel, ∀ p ∈ pairsOf c, p ∈ cov) →
      (∀ c ∈ greedyLoop fuel cov sel, c ∈ full_combinations) ∧
        (greedyLoop fuel cov sel).Nodup := by
  intro fuel
  induction fuel with
  | zero => intro cov sel h1 h2 _; exact ⟨h1, h2⟩
  | succ fuel ih =>
    intro cov sel h1 h2 h3
    cases hps : properSubset cov required with
    | false =>
      rw [greedyLoop_exit_notproper fuel cov sel hps]
      exact ⟨h1, h2⟩
    | true =>
      rcases hpb : pickBest cov with ⟨bc, n⟩
      cases bc with
      | none =>
        rw [greedyLoop_exit_none fuel cov sel n hps hpb]
        exact ⟨h1, h2⟩
      | some c =>
        by_cases hn : n = 0
        · subst hn
          rw [greedyLoop_exit_zero fuel cov sel c hps hpb]
          exact ⟨h1, h2⟩
        · rw [greedyLoop_succ_continue fuel cov sel c n hps hpb hn]
          obtain ⟨hcmem, hcn, -, -⟩ := pickBest_spec cov c n hpb
          have hnz : newCount cov c ≠ 0 := by omega
          have hcnotsel : c ∉ sel := fun hmem => hnz (newCount_eq_zero (h3 c hmem))
          refine ih (greedyStepAdd cov c) (sel ++ [c]) ?_ ?_ ?_
          · intro c' hc'
            rcases List.mem_append.mp hc' with h | h
            · exact h1 c' h
            · rw [List.mem_singleton] at h
              subst h
              exact hcmem
          · rw [List.nodup_append]
            refine ⟨h2, List.nodup_singleton _, ?_⟩
            intro a ha hb
            rw [List.mem_singleton] at hb
            exact hcnotsel (hb ▸ ha)
          · intro c' hc' p hpp
            rcases List.mem_append.mp hc' with h | h
            · exact subset_insertFold _ _ (h3 c' h p hpp)
            · rw [List.mem_singleton] at h
              subst h
              exact (mem_insertFold _ _ _).mpr (Or.inr hpp)

/-- Full pairwise coverage of the returned selection, at the requirement
level: every requirement pair is one of the projections of some selected
combination. -/
theorem pairwise_covers :
    ∀ p ∈ required, ∃ c ∈ pairwise_combinations, p ∈ pairsOf c := by
  apply loop_covers (required.length + 1) [] []
  · intro p hp
    simp at hp
  · intro p hp
    simp at hp
  · exact List.nodup_nil
  · omega

/-- The returned selection is a duplicate-free sublist of the full domain. -/
theorem pairwise_sel :
    (∀ c ∈ pairwise_combinations, c ∈ full_combinations) ∧
      pairwise_combinations.Nodup := by
  apply loop_sel (required.length + 1) [] []
  · intro c hc
    simp at hc
  · exact List.nodup_nil
  · intro c hc
    simp at hc


set_option maxHeartbeats 64000000

set_option maxRecDepth 400000

/-- The full enumeration, evaluated once to a literal list. -/
theorem full_combinations_eq : full_combinations = [("packet_loss", "validator1_heimdall", "mild"),
 ("packet_loss", "validator1_heimdall", "moderate"),
 ("packet_loss", "validator1_heimdall", "severe"),
 ("packet_loss", "validator1_bor", "mild"),
 ("packet_loss", "validator1_bor", "moderate"),
 ("packet_loss", "validator1_bor", "severe"),
 ("packet_loss", "validator1_both", "mild"),
 ("packet_loss", "validator1_both", "moderate"),
 ("packet_loss", "validator1_both", "severe"),
 ("packet_loss", "all_heimdall", "mild"),
 ("packet_loss", "all_heimdall", "moderate"),
 ("packet_loss", "all_heimdall", "severe"),
 ("packet_loss", "all_bor", "mild"),
 ("packet_loss", "all_bor", "moderate"),
 ("packet_loss", "all_bor", "severe"),
 ("packet_loss", "all_both", "mild"),
 ("packet_loss", "all_both", "moderate"),
 ("packet_loss", "all_both", "severe"),
 ("packet_loss", "rabbitmq", "mild"),
 ("packet_loss", "rabbitmq", "moderate"),
 ("packet_loss", "rabbitmq", "severe"),
 ("packet_loss", "rpc_nodes", "mild"),
 ("packet_loss", "rpc_nodes", "moderate"),
 ("packet_loss", "rpc_nodes", "severe"),
 ("latency", "validator1_heimdall", "mild"),
 ("latency", "validator1_heimdall", "moderate"),
 ("latency", "validator1_heimdall", "severe"),
 ("latency", "validator1_bor", "mild"),
 ("latency", "validator1_bor", "moderate"),
 ("latency", "validator1_bor", "severe"),
 ("latency", "validator1_both", "mild"),
 ("latency", "validator1_both", "moderate"),
 ("latency", "validator1_both", "severe"),
 ("latency", "all_heimdall", "mild"),
 ("latency", "all_heimdall", "moderate"),
 ("latency", "all_heimdall", "severe"),
 ("latency", "all_bor", "mild"),
 ("latency", "all_bor", "moderate"),
 ("latency", "all_bor", "severe"),
 ("latency", "all_both", "mild"),
 ("latency", "all_both", "moderate"),
 ("latency", "all_both", "severe"),
 ("latency", "rabbitmq", "mild"),
 ("latency", "rabbitmq", "moderate"),
 ("latency", "rabbitmq", "severe"),
 ("latency", "rpc_nodes", "mild"),
 ("latency", "rpc_nodes", "moderate"),
 ("latency", "rpc_nodes", "severe"),
 ("bandwidth_throttle", "validator1_heimdall", "mild"),
 ("bandwidth_throttle", "validator1_heimdall", "moderate"),
 ("bandwidth_throttle", "validator1_heimdall", "severe"),
 ("bandwidth_throttle", "validator1_bor", "mild"),
 ("bandwidth_throttle", "validator1_bor", "moderate"),
 ("bandwidth_throttle", "validator1_bor", "severe"),
 ("bandwidth_throttle", "validator1_both", "mild"),
 ("bandwidth_throttle", "validator1_both", "moderate"),
 ("bandwidth_throttle", "validator1_both", "severe"),
 ("bandwidth_throttle", "all_heimdall", "mild"),
 ("bandwidth_throttle", "all_heimdall", "moderate"),
 ("bandwidth_throttle", "all_heimdall", "severe"),
 ("bandwidth_throttle", "all_bor", "mild"),
 ("bandwidth_throttle", "all_bor", "moderate"),
 ("bandwidth_throttle", "all_bor", "severe"),
 ("bandwidth_throttle", "all_both", "mild"),
 ("bandwidth_throttle", "all_both", "moderate"),
 ("bandwidth_throttle", "all_both", "severe"),
 ("bandwidth_throttle", "rabbitmq", "mild"),
 ("bandwidth_throttle", "rabbitmq", "moderate"),
 ("bandwidth_throttle", "rabbitmq", "severe"),
 ("bandwidth_throttle", "rpc_nodes", "mild"),
 ("bandwidth_throttle", "rpc_nodes", "moderate"),
 ("bandwidth_throttle", "rpc_nodes", "severe"),
 ("packet_reorder", "validator1_heimdall", "mild"),
 ("packet_reorder", "validator1_heimdall", "moderate"),
 ("packet_reorder", "validator1_heimdall", "severe"),
 ("packet_reorder", "validator1_bor", "mild"),
 ("packet_reorder", "validator1_bor", "moderate"),
 ("packet_reorder", "validator1_bor", "severe"),
 ("packet_reorder", "validator1_both", "mild"),
 ("packet_reorder", "validator1_both", "moderate"),
 ("packet_reorder", "validator1_both", "severe"),
 ("packet_reorder", "all_heimdall", "mild"),
 ("packet_reorder", "all_heimdall", "moderate"),
 ("packet_reorder", "all_heimdall", "severe"),
 ("packet_reorder", "all_bor", "mild"),
 ("packet_reorder", "all_bor", "moderate"),
 ("packet_reorder", "all_bor", "severe"),
 ("packet_reorder", "all_both", "mild"),
 ("packet_reorder", "all_both", "moderate"),
 ("packet_reorder", "all_both", "severe"),
 ("packet_reorder", "rabbitmq", "mild"),
 ("packet_reorder", "rabbitmq", "moderate"),
 ("packet_reorder", "rabbitmq", "severe"),
 ("packet_reorder", "rpc_nodes", "mild"),
 ("packet_reorder", "rpc_nodes", "moderate"),
 ("packet_reorder", "rpc_nodes", "severe"),
 ("connection_drop", "validator1_heimdall", "mild"),
 ("connection_drop", "validator1_heimdall", "moderate"),
 ("connection_drop", "validator1_heimdall", "severe"),
 ("connection_drop", "validator1_bor", "mild"),
 ("connection_drop", "validator1_bor", "moderate"),
 ("connection_drop", "validator1_bor", "severe"),
 ("connection_drop", "validator1_both", "mild"),
 ("connection_drop", "validator1_both", "moderate"),
 ("connection_drop", "validator1_both", "severe"),
 ("connection_drop", "all_heimdall", "mild"),
 ("connection_drop", "all_heimdall", "moderate"),
 ("connection_drop", "all_heimdall", "severe"),
 ("connection_drop", "all_bor", "mild"),
 ("connection_drop", "all_bor", "moderate"),
 ("connection_drop", "all_bor", "severe"),
 ("connection_drop", "all_both", "mild"),
 ("connection_drop", "all_both", "moderate"),
 ("connection_drop", "all_both", "severe"),
 ("connection_drop", "rabbitmq", "mild"),
 ("connection_drop", "rabbitmq", "moderate"),
 ("connection_drop", "rabbitmq", "severe"),
 ("connection_drop", "rpc_nodes", "mild"),
 ("connection_drop", "rpc_nodes", "moderate"),
 ("connection_drop", "rpc_nodes", "severe"),
 ("dns_latency", "validator1_heimdall", "mild"),
 ("dns_latency", "validator1_heimdall", "moderate"),
 ("dns_latency", "validator1_heimdall", "severe"),
 ("dns_latency", "validator1_bor", "mild"),
 ("dns_latency", "validator1_bor", "moderate"),
 ("dns_latency", "validator1_bor", "severe"),
 ("dns_latency", "validator1_both", "mild"),
 ("dns_latency", "validator1_both", "moderate"),
 ("dns_latency", "validator1_both", "severe"),
 ("dns_latency", "all_heimdall", "mild"),
 ("dns_latency", "all_heimdall", "moderate"),
 ("dns_latency", "all_heimdall", "severe"),
 ("dns_latency", "all_bor", "mild"),
 ("dns_latency", "all_bor", "moderate"),
 ("dns_latency", "all_bor", "severe"),
 ("dns_latency", "all_both", "mild"),
 ("dns_latency", "all_both", "moderate"),
 ("dns_latency", "all_both", "severe"),
 ("dns_latency", "rabbitmq", "mild"),
 ("dns_latency", "rabbitmq", "moderate"),
 ("dns_latency", "rabbitmq", "severe"),
 ("dns_latency", "rpc_nodes", "mild"),
 ("dns_latency", "rpc_nodes", "moderate"),
 ("dns_latency", "rpc_nodes", "severe"),
 ("container_restart", "validator1_heimdall", "mild"),
 ("container_restart", "validator1_heimdall", "moderate"),
 ("container_restart", "validator1_heimdall", "severe"),
 ("container_restart", "validator1_bor", "mild"),
 ("container_restart", "validator1_bor", "moderate"),
 ("container_restart", "validator1_bor", "severe"),
 ("container_restart", "validator1_both", "mild"),
 ("container_restart", "validator1_both", "moderate"),
 ("container_restart", "validator1_both", "severe"),
 ("container_restart", "all_heimdall", "mild"),
 ("container_restart", "all_heimdall", "moderate"),
 ("container_restart", "all_heimdall", "severe"),
 ("container_restart", "all_bor", "mild"),
 ("container_restart", "all_bor", "moderate"),
 ("container_restart", "all_bor", "severe"),
 ("container_restart", "all_both", "mild"),
 ("container_restart", "all_both", "moderate"),
 ("container_restart", "all_both", "severe"),
 ("container_restart", "rabbitmq", "mild"),
 ("container_restart", "rabbitmq", "moderate"),
 ("container_restart", "rabbitmq", "severe"),
 ("container_restart", "rpc_nodes", "mild"),
 ("container_restart", "rpc_nodes", "moderate"),
 ("container_restart", "rpc_nodes", "severe"),
 ("container_pause", "validator1_heimdall", "mild"),
 ("container_pause", "validator1_heimdall", "moderate"),
 ("container_pause", "validator1_heimdall", "severe"),
 ("container_pause", "validator1_bor", "mild"),
 ("container_pause", "validator1_bor", "moderate"),
 ("container_pause", "validator1_bor", "severe"),
 ("container_pause", "validator1_both", "mild"),
 ("container_pause", "validator1_both", "moderate"),
 ("container_pause", "validator1_both", "severe"),
 ("container_pause", "all_heimdall", "mild"),
 ("container_pause", "all_heimdall", "moderate"),
 ("container_pause", "all_heimdall", "severe"),
 ("container_pause", "all_bor", "mild"),
 ("container_pause", "all_bor", "moderate"),
 ("container_pause", "all_bor", "severe"),
 ("container_pause", "all_both", "mild"),
 ("container_pause", "all_both", "moderate"),
 ("container_pause", "all_both", "severe"),
 ("container_pause", "rabbitmq", "mild"),
 ("container_pause", "rabbitmq", "moderate"),
 ("container_pause", "rabbitmq", "severe"),
 ("container_pause", "rpc_nodes", "mild"),
 ("container_pause", "rpc_nodes", "moderate"),
 ("container_pause", "rpc_nodes", "severe"),
 ("cpu_stress", "validator1_heimdall", "mild"),
 ("cpu_stress", "validator1_heimdall", "moderate"),
 ("cpu_stress", "validator1_heimdall", "severe"),
 ("cpu_stress", "validator1_bor", "mild"),
 ("cpu_stress", "validator1_bor", "moderate"),
 ("cpu_stress", "validator1_bor", "severe"),
 ("cpu_stress", "validator1_both", "mild"),
 ("cpu_stress", "validator1_both", "moderate"),
 ("cpu_stress", "validator1_both", "severe"),
 ("cpu_stress", "all_heimdall", "mild"),
 ("cpu_stress", "all_heimdall", "moderate"),
 ("cpu_stress", "all_heimdall", "severe"),
 ("cpu_stress", "all_bor", "mild"),
 ("cpu_stress", "all_bor", "moderate"),
 ("cpu_stress", "all_bor", "severe"),
 ("cpu_stress", "all_both", "mild"),
 ("cpu_stress", "all_both", "moderate"),
 ("cpu_stress", "all_both", "severe"),
 ("cpu_stress", "rabbitmq", "mild"),
 ("cpu_stress", "rabbitmq", "moderate"),
 ("cpu_stress", "rabbitmq", "severe"),
 ("cpu_stress", "rpc_nodes", "mild"),
 ("cpu_stress", "rpc_nodes", "moderate"),
 ("cpu_stress", "rpc_nodes", "severe"),
 ("memory_pressure", "validator1_heimdall", "mild"),
 ("memory_pressure", "validator1_heimdall", "moderate"),
 ("memory_pressure", "validator1_heimdall", "severe"),
 ("memory_pressure", "validator1_bor", "mild"),
 ("memory_pressure", "validator1_bor", "moderate"),
 ("memory_pressure", "validator1_bor", "severe"),
 ("memory_pressure", "validator1_both", "mild"),
 ("memory_pressure", "validator1_both", "moderate"),
 ("memory_pressure", "validator1_both", "severe"),
 ("memory_pressure", "all_heimdall", "mild"),
 ("memory_pressure", "all_heimdall", "moderate"),
 ("memory_pressure", "all_heimdall", "severe"),
 ("memory_pressure", "all_bor", "mild"),
 ("memory_pressure", "all_bor", "moderate"),
 ("memory_pressure", "all_bor", "severe"),
 ("memory_pressure", "all_both", "mild"),
 ("memory_pressure", "all_both", "moderate"),
 ("memory_pressure", "all_both", "severe"),
 ("memory_pressure", "rabbitmq", "mild"),
 ("memory_pressure", "rabbitmq", "moderate"),
 ("memory_pressure", "rabbitmq", "severe"),
 ("memory_pressure", "rpc_nodes", "mild"),
 ("memory_pressure", "rpc_nodes", "moderate"),
 ("memory_pressure", "rpc_nodes", "severe"),
 ("disk_io", "validator1_heimdall", "mild"),
 ("disk_io", "validator1_heimdall", "moderate"),
 ("disk_io", "validator1_heimdall", "severe"),
 ("disk_io", "validator1_bor", "mild"),
 ("disk_io", "validator1_bor", "moderate"),
 ("disk_io", "validator1_bor", "severe"),
 ("disk_io", "validator1_both", "mild"),
 ("disk_io", "validator1_both", "moderate"),
 ("disk_io", "validator1_both", "severe"),
 ("disk_io", "all_heimdall", "mild"),
 ("disk_io", "all_heimdall", "moderate"),
 ("disk_io", "all_heimdall", "severe"),
 ("disk_io", "all_bor", "mild"),
 ("disk_io", "all_bor", "moderate"),
 ("disk_io", "all_bor", "severe"),
 ("disk_io", "all_both", "mild"),
 ("disk_io", "all_both", "moderate"),
 ("disk_io", "all_both", "severe"),
 ("disk_io", "rabbitmq", "mild"),
 ("disk_io", "rabbitmq", "moderate"),
 ("disk_io", "rabbitmq", "severe"),
 ("disk_io", "rpc_nodes", "mild"),
 ("disk_io", "rpc_nodes", "moderate"),
 ("disk_io", "rpc_nodes", "severe")] := by rfl

/-- The packed full enumeration, evaluated once to its literal value. -/
theorem comboPacked_eq : full_combinations.map packCombo = comboPackList := by rfl

/-- The packed assembled scenario names, evaluated once to their literal
value. -/
theorem namesPacked_eq : (full_combinations.map nameOf).map packString = namePackList := by
  rfl

/-- Claim C1: the list returned by the built-in greedy pairwise strategy
achieves complete 2-way coverage: for every unordered pair of distinct
dimensions and every pair of values from those dimensions, some returned
combination carries both values. -/
theorem claim_C1_pairwise_coverage :
    (∀ f ∈ faultKeys, ∀ t ∈ tierKeys,
      ∃ c ∈ pairwise_combinations, c.1 = f ∧ c.2.1 = t) ∧
    (∀ f ∈ faultKeys, ∀ s ∈ SEVERITIES,
      ∃ c ∈ pairwise_combinations, c.1 = f ∧ c.2.2 = s) ∧
    (∀ t ∈ tierKeys, ∀ s ∈ SEVERITIES,
      ∃ c ∈ pairwise_combinations, c.2.1 = t ∧ c.2.2 = s) := by
  refine ⟨fun f hf t ht => ?_, fun f hf s hs => ?_, fun t ht s hs => ?_⟩
  · obtain ⟨c, hc, hp⟩ := pairwise_covers (0, f, 1, t)
      ((mem_required_iff _).mpr (Or.inl ⟨f, hf, t, ht, rfl⟩))
    exact ⟨c, hc, pairsOf_elim01 c f t hp⟩
  · obtain ⟨c, hc, hp⟩ := pairwise_covers (0, f, 2, s)
      ((mem_required_iff _).mpr (Or.inr (Or.inl ⟨f, hf, s, hs, rfl⟩)))
    exact ⟨c, hc, pairsOf_elim02 c f s hp⟩
  · obtain ⟨c, hc, hp⟩ := pairwise_covers (1, t, 2, s)
      ((mem_required_iff _).mpr (Or.inr (Or.inr ⟨t, ht, s, hs, rfl⟩)))
    exact ⟨c, hc, pairsOf_elim12 c t s hp⟩

/-- Witness for C1: one concrete value pair per dimension pair. -/
theorem claim_C1_pairwise_coverage_witness :
    ("packet_loss" ∈ faultKeys ∧ "rabbitmq" ∈ tierKeys ∧
      ∃ c ∈ pairwise_combinations, c.1 = "packet_loss" ∧ c.2.1 = "rabbitmq") ∧
    ("disk_io" ∈ faultKeys ∧ "severe" ∈ SEVERITIES ∧
      ∃ c ∈ pairwise_combinations, c.1 = "disk_io" ∧ c.2.2 = "severe") ∧
    ("all_bor" ∈ tierKeys ∧ "mild" ∈ SEVERITIES ∧
      ∃ c ∈ pairwise_combinations, c.2.1 = "all_bor" ∧ c.2.2 = "mild") :=
  ⟨⟨by decide, by decide,
    claim_C1_pairwise_coverage.1 _ (by decide) _ (by decide)⟩,
   ⟨by decide, by decide,
    claim_C1_pairwise_coverage.2.1 _ (by decide) _ (by decide)⟩,
   ⟨by decide, by decide,
    claim_C1_pairwise_coverage.2.2 _ (by decide) _ (by decide)⟩⟩

/-- Claim C9: every combination returned by the greedy pairwise algorithm
is drawn from the full Cartesian product, and none is returned twice. -/
theorem claim_C9_selection_wellformed :
    pairwise_combinations ⊆ full_combinations ∧ pairwise_combinations.Nodup :=
  ⟨fun c hc => pairwise_sel.1 c hc, pairwise_sel.2⟩

/-- Claim C5: the pairwise selection is no longer than the full enumeration
of 264 combinations, and no shorter than 88, the largest pairwise
requirement count over a single dimension pair (11 times 8). -/
theorem claim_C5_length_bounds :
    88 ≤ pairwise_combinations.length ∧
    pairwise_combinations.length ≤ full_combinations.length ∧
    full_combinations.length = 264 := by
  refine ⟨?_, ?_, by decide⟩
  · have hnodup : (faultKeys.flatMap fun f => tierKeys.map fun t => (f, t)).Nodup := by
      decide
    have hsubset : (faultKeys.flatMap fun f => tierKeys.map fun t => (f, t)) ⊆
        pairwise_combinations.map fun c => (c.1, c.2.1) := by
      intro x hx
      simp only [List.mem_flatMap, List.mem_map] at hx
      obtain ⟨f, hf, t, ht, rfl⟩ := hx
      obtain ⟨c, hc, hp⟩ := pairwise_covers (0, f, 1, t)
        ((mem_required_iff _).mpr (Or.inl ⟨f, hf, t, ht, rfl⟩))
      obtain ⟨h1, h2⟩ := pairsOf_elim01 c f t hp
      exact List.mem_map.mpr ⟨c, hc, by rw [h1, h2]⟩
    have hle := (List.Nodup.subperm hnodup hsubset).length_le
    have hlen : (faultKeys.flatMap fun f => tierKeys.map fun t => (f, t)).length = 88 := by
      decide
    rw [hlen, List.length_map] at hle
    exact hle
  · exact (List.Nodup.subperm pairwise_sel.2 (fun c hc => pairwise_sel.1 c hc)).length_le

/-- Claim C3: whenever a round of the greedy loop appends a combination,
that combination is the first one, in full enumeration order, among all
combinations of the full domain covering the maximal number of still
uncovered requirement pairs; the whole algorithm is a pure function of the
fixed matrix, so two runs return identical lists. -/
theorem claim_C3_first_max_round (cov : List Pair) (c : String × String × String)
    (n : Int) (hpb : pickBest cov = (some c, n)) (hn : n ≠ 0)
    (hps : properSubset cov required = true) :
    (∀ sel fuel, greedyLoop (fuel + 1) cov sel =
        greedyLoop fuel (greedyStepAdd cov c) (sel ++ [c])) ∧
    c ∈ full_combinations ∧
    (∀ x ∈ full_combinations, (newCount cov x : Int) ≤ (newCount cov c : Int)) ∧
    ∃ l₁ l₂, full_combinations = l₁ ++ c :: l₂ ∧
      ∀ x ∈ l₁, (newCount cov x : Int) < (newCount cov c : Int) := by
  obtain ⟨hmem, hcn, hall, l₁, l₂, hsplit, hlt⟩ := pickBest_spec cov c n hpb
  refine ⟨fun sel fuel => greedyLoop_succ_continue fuel cov sel c n hps hpb hn,
    hmem, ?_, l₁, l₂, hsplit, ?_⟩
  · intro x hx
    rw [hcn]
    exact hall x hx
  · intro x hx
    rw [hcn]
    exact hlt x hx

theorem newCount_nil (c : String × String × String) : newCount [] c = 3 := rfl

theorem foldl_bestStep_no_update (cov : List Pair) (l : List (String × String × String))
    (b : Option (String × String × String) × Int)
    (hall : ∀ x ∈ l, (newCount cov x : Int) ≤ b.2) :
    l.foldl (bestStep cov) b = b := by
  induction l with
  | nil => rfl
  | cons x l ih =>
    simp only [List.foldl_cons]
    have hx : bestStep cov b x = b := by
      unfold bestStep
      rw [if_neg (not_lt.mpr (hall x (List.mem_cons_self _ _)))]
    rw [hx]
    exact ih (fun y hy => hall y (List.mem_cons_of_mem _ hy))

/-- The first round of the scan on empty coverage: every combination covers
3 new pairs, so the very first combination of the enumeration wins. -/
theorem pickBest_nil_eq :
    pickBest [] = (some ("packet_loss", "validator1_heimdall", "mild"), 3) := by
  obtain ⟨rest, hrest⟩ : ∃ rest, full_combinations =
      ("packet_loss", "validator1_heimdall", "mild") :: rest := ⟨_, rfl⟩
  have hstep : bestStep [] (none, -1) ("packet_loss", "validator1_heimdall", "mild") =
      (some ("packet_loss", "validator1_heimdall", "mild"), (3 : Int)) := rfl
  unfold pickBest
  rw [hrest, List.foldl_cons, hstep]
  apply foldl_bestStep_no_update
  intro x hx
  simp [newCount_nil]

/-- Witness for C3 at the first round: empty coverage, where the first
maximal combination is the very first one of the full enumeration. -/
theorem claim_C3_first_max_round_witness :
    pickBest [] = (some ("packet_loss", "validator1_heimdall", "mild"), 3) ∧
    ((3 : Int) ≠ 0) ∧ properSubset [] required = true ∧
    (greedyLoop 1 [] [] =
      greedyLoop 0
        (greedyStepAdd [] ("packet_loss", "validator1_heimdall", "mild"))
        [("packet_loss", "validator1_heimdall", "mild")] ∧
     ("packet_loss", "validator1_heimdall", "mild") ∈ full_combinations) := by
  have hpb := pickBest_nil_eq
  have hps : properSubset [] required = true := by decide
  have h := claim_C3_first_max_round [] ("packet_loss", "validator1_heimdall", "mild")
    3 hpb (by decide) hps
  exact ⟨hpb, by decide, hps, h.1 [] 0, h.2.1⟩

/-- Claim C2: the full enumeration is the Cartesian product of the three
dimensions: its length is the product of the dimension sizes, 264, it has
no duplicates, and at every index the severity varies fastest (every step),
the target tier every 3 steps, and the fault type every 24 steps. -/
theorem claim_C2_full_enumeration :
    full_combinations.length =
      faultKeys.length * (tierKeys.length * SEVERITIES.length) ∧
    full_combinations.length = 264 ∧
    full_combinations.Nodup ∧
    ∀ k : Fin 264, full_combinations.getD k.val ("", "", "") =
      (faultKeys.getD (k.val / 24) "", tierKeys.getD (k.val / 3 % 8) "",
       SEVERITIES.getD (k.val % 3) "") :=
  ⟨by decide, by decide,
   List.Nodup.of_map packCombo (by rw [comboPacked_eq]; exact comboPack_nodup),
   by simp only [full_combinations_eq]; decide⟩

set_option maxHeartbeats 64000000

set_option maxRecDepth 400000

set_option synthInstance.maxSize 1000

/-- All 264 scenario names assembled over the full combination domain are
pairwise distinct (checked by evaluation over the whole domain). -/
theorem names_nodup : (full_combinations.map nameOf).Nodup := by
  refine List.Nodup.of_map packString ?_
  rw [namesPacked_eq]
  exact namePack_nodup

/-- Claim C6: assembling (packet_loss, validator1_heimdall, moderate) yields
a record whose name ends with the 40pct slug followed by
validator1-heimdall, whose fault list is exactly one entry of type network
with the moderate packet-loss parameters, whose duration is 5m, and whose
3 success criteria are each windowed at 5m. -/
theorem claim_C6_concrete_case_a :
    ((build_scenario "packet_loss" "validator1_heimdall" "moderate").map fun r =>
      (r.metadata.name,
       r.spec.faults.map fun fe => (fe.type, fe.params),
       r.spec.duration,
       r.spec.success_criteria.map fun c => c.window))
    = .ok ("gen-packet-loss" ++ "-40pct" ++ "-validator1-heimdall",
           [("network",
             [("packet_loss", Value.int 40), ("target_proto", Value.str "tcp,udp"),
              ("device", Value.str "eth0")])],
           "5m", ["5m", "5m", "5m"]) := by decide

/-- Claim C7: build_scenario fails with the missing key as the LookupError
payload when the fault type, target tier, or severity is undeclared (in
source lookup order), and returns a record when all three are declared. -/
theorem claim_C7_lookup_errors :
    (∀ ft tt sv : String, ft ∉ faultKeys → build_scenario ft tt sv = .error ft) ∧
    (∀ ft tt sv : String, ft ∈ faultKeys → tt ∉ tierKeys →
      build_scenario ft tt sv = .error tt) ∧
    (∀ ft tt sv : String, ft ∈ faultKeys → tt ∈ tierKeys → sv ∉ SEVERITIES →
      build_scenario ft tt sv = .error sv) ∧
    (∀ ft tt sv : String, ft ∈ faultKeys → tt ∈ tierKeys → sv ∈ SEVERITIES →
      ∃ r, build_scenario ft tt sv = .ok r) :=
  ⟨build_error_fault, build_error_tier, build_error_severity,
   fun ft tt sv hf ht hs =>
     (build_ok_name ft tt sv hf ht hs).elim fun r hr => ⟨r, hr.1⟩⟩

/-- Witness for C7 at concrete inputs: an undeclared fault type, an
undeclared tier, an undeclared severity, and a fully declared combination. -/
theorem claim_C7_lookup_errors_witness :
    ("bogus" ∉ faultKeys ∧ build_scenario "bogus" "rabbitmq" "mild" = .error "bogus") ∧
    ("packet_loss" ∈ faultKeys ∧ "bogus" ∉ tierKeys ∧
      build_scenario "packet_loss" "bogus" "mild" = .error "bogus") ∧
    ("packet_loss" ∈ faultKeys ∧ "rabbitmq" ∈ tierKeys ∧ "extreme" ∉ SEVERITIES ∧
      build_scenario "packet_loss" "rabbitmq" "extreme" = .error "extreme") ∧
    (∃ r, build_scenario "packet_loss" "rabbitmq" "mild" = .ok r) :=
  ⟨⟨by decide, claim_C7_lookup_errors.1 _ _ _ (by decide)⟩,
   ⟨by decide, by decide, claim_C7_lookup_errors.2.1 _ _ _ (by decide) (by decide)⟩,
   ⟨by decide, by decide, by decide,
    claim_C7_lookup_errors.2.2.1 _ _ _ (by decide) (by decide) (by decide)⟩,
   claim_C7_lookup_errors.2.2.2 _ _ _ (by decide) (by decide) (by decide)⟩

/-- Claim C4: the scenario-name function is injective over the full
combination domain: two distinct declared combinations always assemble to
records with different metadata names. -/
theorem claim_C4_name_injective :
    ∀ c1 ∈ full_combinations, ∀ c2 ∈ full_combinations,
      c1 ≠ c2 → nameOf c1 ≠ nameOf c2 :=
  fun _ h1 _ h2 hne heq =>
    hne (List.inj_on_of_nodup_map names_nodup h1 h2 heq)

/-- Witness for C4 at two concrete combinations of the domain. -/
theorem claim_C4_name_injective_witness :
    ("packet_loss", "validator1_heimdall", "mild") ∈ full_combinations ∧
    ("latency", "validator1_heimdall", "mild") ∈ full_combinations ∧
    ("packet_loss", ("validator1_heimdall", "mild")) ≠ ("latency", ("validator1_heimdall", "mild")) ∧
    nameOf ("packet_loss", "validator1_heimdall", "mild") ≠
      nameOf ("latency", "validator1_heimdall", "mild") :=
  ⟨by decide, by decide, by decide,
   claim_C4_name_injective _ (by decide) _ (by decide) (by decide)⟩

/-- Claim C10: on every declared combination the scenario name computed
independently by the preview listing equals the metadata name of the record
produced by build_scenario. -/
theorem claim_C10_preview_name_agrees :
    ∀ c ∈ full_combinations, ∃ r, build_scenario c.1 c.2.1 c.2.2 = .ok r ∧
      preview_name c.1 c.2.1 c.2.2 = .ok r.metadata.name := by
  intro c hc
  obtain ⟨hf, ht, hs⟩ := (mem_full_iff c).mp hc
  exact build_ok_name _ _ _ hf ht hs

/-- Witness for C10 at a concrete combination of the domain. -/
theorem claim_C10_preview_name_agrees_witness :
    ("packet_loss", "validator1_heimdall", "moderate") ∈ full_combinations ∧
    ∃ r, build_scenario "packet_loss" "validator1_heimdall" "moderate" = .ok r ∧
      preview_name "packet_loss" "validator1_heimdall" "moderate" = .ok r.metadata.name :=
  ⟨by decide, claim_C10_preview_name_agrees ("packet_loss", "validator1_heimdall", "moderate") (by decide)⟩

end ChaosUtils
